import Mathlib

set_option autoImplicit false

/-!
Verification of the `github-events` crate (src/lib.rs, src/actions.rs).

The crate consists solely of data-type declarations carrying
`#[derive(Serialize, Deserialize)]`; every decoding and encoding behaviour of
the crate is the serde/serde_json behaviour generated mechanically from those
declarations.  This development embeds the declarations as explicit field-type
descriptions (`Ty`) and embeds the serde_derive/serde_json semantics as an
executable decoder and encoder over a model of parsed JSON documents.

Modelling notes:
* JSON numbers are modelled as integers.  Every numeric field declared in the
  source is `i64` or `isize`; no floating-point field exists.
* Byte positions (the line/column information of serde_json errors) are a
  property of the concrete input text, not of the parsed document, and are not
  modelled; `DecodeError` carries the structural content of serde_json's error
  categories (expected/found kinds, field names, variant names).
* serde_json can also deserialize a struct from a JSON array (positional
  form); no claim involves that form and it is not modelled.
-/

namespace GithubEvents

/-- A parsed JSON document (the shape of `serde_json::Value`). -/
inductive Json where
  | null : Json
  | bool (b : Bool) : Json
  | num (n : Int) : Json
  | str (s : String) : Json
  | arr (elems : List Json) : Json
  | obj (entries : List (String × Json)) : Json

/-- The kind word serde_json uses for a JSON value in "invalid type" messages. -/
def Json.kindName : Json → String
  | .null => "null"
  | .bool _ => "boolean"
  | .num _ => "integer"
  | .str _ => "string"
  | .arr _ => "sequence"
  | .obj _ => "map"

/-- The distinguishable content of the errors serde_json produces when the
derived `Deserialize` impls of the crate reject a document.  Positional
(line/column) data is not modelled. -/
inductive DecodeError where
  /-- serde's "invalid type: <found>, expected <expected>" error. -/
  | invalidType (expected : String) (found : String)
  /-- serde's "missing field `<name>`" error. -/
  | missingField (name : String)
  /-- serde's "duplicate field `<name>`" error. -/
  | duplicateField (name : String)
  /-- serde's "unknown variant `<name>`" error, raised both for an
  unrecognized external tag of the `Event` enum and for an action string
  outside an action enumeration's value set. -/
  | unknownVariant (name : String)
  /-- serde_json's parse error when the document for an externally tagged
  enum is an object with no key at all. -/
  | expectedVariantKey
  /-- serde_json's parse error when the object for an externally tagged enum
  contains further entries after the single variant entry. -/
  | trailingKeys

/-- Decoded Rust values, as produced by the derived `Deserialize` impls:
`String`, `i64`/`isize`, `bool`, captured `serde_json::Value`, `Option`,
`Vec`, structs (field list in declaration order) and action-enumeration
values (by their snake_case wire string). -/
inductive Val where
  | str (s : String) : Val
  | int (n : Int) : Val
  | bool (b : Bool) : Val
  | json (j : Json) : Val
  | opt (o : Option Val) : Val
  | list (vs : List Val) : Val
  | record (fields : List (String × Val)) : Val
  | action (s : String) : Val

mutual
/-- Serialization (`Serialize` as derived): structs become objects with their
fields in declaration order, `None` becomes `null`, `Some v` serializes as
`v`, captured `serde_json::Value`s are emitted unchanged, action enumeration
values become their snake_case strings. -/
def Val.encode : Val → Json
  | .str s => .str s
  | .int n => .num n
  | .bool b => .bool b
  | .json j => j
  | .opt none => .null
  | .opt (some v) => v.encode
  | .list vs => .arr (Val.encodeList vs)
  | .record fs => .obj (Val.encodeFields fs)
  | .action s => .str s

/-- Serialization of a list of values, element by element. -/
def Val.encodeList : List Val → List Json
  | [] => []
  | v :: rest => v.encode :: Val.encodeList rest

/-- Serialization of a struct's fields, in order. -/
def Val.encodeFields : List (String × Val) → List (String × Json)
  | [] => []
  | (n, v) :: rest => (n, v.encode) :: Val.encodeFields rest
end

/-- Field lookup inside a decoded struct value. -/
def Val.field : Val → String → Option Val
  | .record fs, n => lookupStr fs n
  | _, _ => none
where
  lookupStr : List (String × Val) → String → Option Val
    | [], _ => none
    | (k, v) :: rest, n => if n = k then some v else lookupStr rest n

mutual
/-- The declared (wire) type of a field of the crate's data model:
`String`, `i64`, `isize`, `bool`, opaque `::serde_json::Value`, `Option<_>`,
`Vec<_>`, one of the `actions` enumerations (by its snake_case value set), or
a struct (its Rust name and its fields in declaration order, with the wire
names produced by `#[serde(rename = "...")]` where present). -/
inductive Ty where
  | string : Ty
  | i64 : Ty
  | isize : Ty
  | boolean : Ty
  | value : Ty
  | option (t : Ty) : Ty
  | vec (t : Ty) : Ty
  | action (values : List String) : Ty
  | record (rustName : String) (fields : Fields) : Ty

/-- A struct's field list: wire name and declared type, in declaration order. -/
inductive Fields where
  | nil : Fields
  | cons (name : String) (t : Ty) (rest : Fields) : Fields
end

/-- Convenience constructor for field lists. -/
def Fields.ofList : List (String × Ty) → Fields
  | [] => .nil
  | (n, t) :: rest => .cons n t (Fields.ofList rest)

/-- The wire names of a field list, in order. -/
def Fields.names : Fields → List String
  | .nil => []
  | .cons n _ rest => n :: Fields.names rest

/-- The field list as a Lean list. -/
def Fields.toList : Fields → List (String × Ty)
  | .nil => []
  | .cons n t rest => (n, t) :: Fields.toList rest

/-- Declared type of a wire name inside a field list, if declared. -/
def Fields.lookupTy : Fields → String → Option Ty
  | .nil, _ => none
  | .cons n t rest, k => if k = n then some t else Fields.lookupTy rest k

/-- serde_derive substitutes `None` for a *missing* field of type `Option<_>`
and errors with "missing field" for every other missing field. -/
def missingDefault : Ty → Option Val
  | .option _ => some (.opt none)
  | _ => none

/-- A decoder table entry: wire name, value decoder, missing-field default. -/
abbrev TableEntry : Type :=
  String × (Json → Except DecodeError Val) × Option Val

/-- First-occurrence lookup of a string key in an association list. -/
def lookupKey {A : Type} : List (String × A) → String → Option A
  | [], _ => none
  | (n, a) :: rest, k => if k = n then some a else lookupKey rest k

/-- Decode each element of a JSON array with the same element decoder
(`Vec<T>` deserialization). -/
def decodeElems (d : Json → Except DecodeError Val) :
    List Json → Except DecodeError (List Val)
  | [] => .ok []
  | j :: rest =>
    match d j with
    | .error e => .error e
    | .ok v =>
      match decodeElems d rest with
      | .error e => .error e
      | .ok vs => .ok (v :: vs)

/-- The loop of a derived struct visitor: read the input entries in input
order; for a declared key, error on a duplicate, otherwise decode the value
now; ignore undeclared keys (no `deny_unknown_fields` in the source). -/
def runEntries (table : List TableEntry) :
    List (String × Json) → List (String × Val) →
    Except DecodeError (List (String × Val))
  | [], acc => .ok acc
  | (k, j) :: rest, acc =>
    match lookupKey table k with
    | none => runEntries table rest acc
    | some (d, _) =>
      if (lookupKey acc k).isSome then .error (.duplicateField k)
      else
        match d j with
        | .error e => .error e
        | .ok v => runEntries table rest (acc ++ [(k, v)])

/-- After the input map is exhausted: check the declared fields in
declaration order, substituting `None` for missing `Option<_>` fields and
erroring with "missing field" otherwise. -/
def finishFields : List TableEntry → List (String × Val) →
    Except DecodeError (List (String × Val))
  | [], _ => .ok []
  | (n, _, miss) :: rest, acc =>
    match lookupKey acc n with
    | some v =>
      match finishFields rest acc with
      | .error e => .error e
      | .ok tl => .ok ((n, v) :: tl)
    | none =>
      match miss with
      | some v =>
        match finishFields rest acc with
        | .error e => .error e
        | .ok tl => .ok ((n, v) :: tl)
      | none => .error (.missingField n)

/-- Derived struct deserialization from an object's entries. -/
def runRecord (table : List TableEntry) (entries : List (String × Json)) :
    Except DecodeError Val :=
  match runEntries table entries [] with
  | .error e => .error e
  | .ok acc =>
    match finishFields table acc with
    | .error e => .error e
    | .ok fvals => .ok (.record fvals)

mutual
/-- The serde_derive/serde_json deserialization semantics of a declared type. -/
def Ty.decode : Ty → Json → Except DecodeError Val
  | .string => fun j =>
    match j with
    | .str s => .ok (.str s)
    | _ => .error (.invalidType "a string" j.kindName)
  | .i64 => fun j =>
    match j with
    | .num n => .ok (.int n)
    | _ => .error (.invalidType "i64" j.kindName)
  | .isize => fun j =>
    match j with
    | .num n => .ok (.int n)
    | _ => .error (.invalidType "isize" j.kindName)
  | .boolean => fun j =>
    match j with
    | .bool b => .ok (.bool b)
    | _ => .error (.invalidType "a boolean" j.kindName)
  | .value => fun j => .ok (.json j)
  | .option t => fun j =>
    match j with
    | .null => .ok (.opt none)
    | _ =>
      match Ty.decode t j with
      | .error e => .error e
      | .ok v => .ok (.opt (some v))
  | .vec t => fun j =>
    match j with
    | .arr elems =>
      match decodeElems (Ty.decode t) elems with
      | .error e => .error e
      | .ok vs => .ok (.list vs)
    | _ => .error (.invalidType "a sequence" j.kindName)
  | .action values => fun j =>
    match j with
    | .str s =>
      if values.contains s then .ok (.action s) else .error (.unknownVariant s)
    | _ => .error (.invalidType "variant identifier" j.kindName)
  | .record _ fs => fun j =>
    match j with
    | .obj entries => runRecord (Fields.decoders fs) entries
    | _ => .error (.invalidType "struct" j.kindName)

/-- The decoder table of a field list. -/
def Fields.decoders : Fields → List TableEntry
  | .nil => []
  | .cons n t rest => (n, Ty.decode t, missingDefault t) :: Fields.decoders rest
end


/-- String membership in a list, by structural recursion. -/
def containsStr : List String → String → Bool
  | [], _ => false
  | y :: ys, x => if x = y then true else containsStr ys x

/-- All strings in the list are pairwise distinct. -/
def distinctB : List String → Bool
  | [] => true
  | x :: xs => !containsStr xs x && distinctB xs

mutual
/-- Well-formedness of a declared type: every struct field list (at every
nesting level) uses pairwise distinct wire names.  This holds for every
struct declared in the source and is checked by evaluation below. -/
def Ty.wfB : Ty → Bool
  | .string => true
  | .i64 => true
  | .isize => true
  | .boolean => true
  | .value => true
  | .option t => t.wfB
  | .vec t => t.wfB
  | .action _ => true
  | .record _ fs => distinctB (Fields.names fs) && Fields.wfB fs

/-- All field types of a field list are well-formed. -/
def Fields.wfB : Fields → Bool
  | .nil => true
  | .cons _ t rest => t.wfB && Fields.wfB rest
end

namespace actions

/-- `actions::Check` (src/actions.rs:1-8), `#[serde(rename_all = "snake_case")]`. -/
inductive Check where
  | created
  | rerequested
  | requestedAction
  | completed

/-- Derived `Serialize` of `actions::Check`: the snake_case wire string. -/
def Check.render : Check → String
  | .created => "created"
  | .rerequested => "rerequested"
  | .requestedAction => "requested_action"
  | .completed => "completed"

/-- Derived `Deserialize` of `actions::Check` from a wire string: exact,
case-sensitive match against the snake_case variant names, otherwise serde's
"unknown variant" error. -/
def Check.parse (s : String) : Except DecodeError Check :=
  if s = "created" then .ok .created
  else if s = "rerequested" then .ok .rerequested
  else if s = "requested_action" then .ok .requestedAction
  else if s = "completed" then .ok .completed
  else .error (.unknownVariant s)

/-- The wire value set of `actions::Check`. -/
def Check.values : List String :=
  ["created", "rerequested", "requested_action", "completed"]

/-- `actions::Created` (src/actions.rs:10-14). -/
inductive Created where
  | created

/-- Derived `Serialize` of `actions::Created`. -/
def Created.render : Created → String
  | .created => "created"

/-- Derived `Deserialize` of `actions::Created`. -/
def Created.parse (s : String) : Except DecodeError Created :=
  if s = "created" then .ok .created
  else .error (.unknownVariant s)

/-- The wire value set of `actions::Created`. -/
def Created.values : List String := ["created"]

/-- `actions::Revoked` (src/actions.rs:16-20). -/
inductive Revoked where
  | revoked

/-- Derived `Serialize` of `actions::Revoked`. -/
def Revoked.render : Revoked → String
  | .revoked => "revoked"

/-- Derived `Deserialize` of `actions::Revoked`. -/
def Revoked.parse (s : String) : Except DecodeError Revoked :=
  if s = "revoked" then .ok .revoked
  else .error (.unknownVariant s)

/-- The wire value set of `actions::Revoked`. -/
def Revoked.values : List String := ["revoked"]

/-- `actions::CreatedDeleted` (src/actions.rs:22-27). -/
inductive CreatedDeleted where
  | created
  | deleted

/-- Derived `Serialize` of `actions::CreatedDeleted`. -/
def CreatedDeleted.render : CreatedDeleted → String
  | .created => "created"
  | .deleted => "deleted"

/-- Derived `Deserialize` of `actions::CreatedDeleted`. -/
def CreatedDeleted.parse (s : String) : Except DecodeError CreatedDeleted :=
  if s = "created" then .ok .created
  else if s = "deleted" then .ok .deleted
  else .error (.unknownVariant s)

/-- The wire value set of `actions::CreatedDeleted`. -/
def CreatedDeleted.values : List String := ["created", "deleted"]

/-- `actions::CrEdDel` (src/actions.rs:29-35). -/
inductive CrEdDel where
  | created
  | edited
  | deleted

/-- Derived `Serialize` of `actions::CrEdDel`. -/
def CrEdDel.render : CrEdDel → String
  | .created => "created"
  | .edited => "edited"
  | .deleted => "deleted"

/-- Derived `Deserialize` of `actions::CrEdDel`. -/
def CrEdDel.parse (s : String) : Except DecodeError CrEdDel :=
  if s = "created" then .ok .created
  else if s = "edited" then .ok .edited
  else if s = "deleted" then .ok .deleted
  else .error (.unknownVariant s)

/-- The wire value set of `actions::CrEdDel`. -/
def CrEdDel.values : List String := ["created", "edited", "deleted"]

/-- `actions::AddedRemoved` (src/actions.rs:37-42). -/
inductive AddedRemoved where
  | added
  | removed

/-- Derived `Serialize` of `actions::AddedRemoved`. -/
def AddedRemoved.render : AddedRemoved → String
  | .added => "added"
  | .removed => "removed"

/-- Derived `Deserialize` of `actions::AddedRemoved`. -/
def AddedRemoved.parse (s : String) : Except DecodeError AddedRemoved :=
  if s = "added" then .ok .added
  else if s = "removed" then .ok .removed
  else .error (.unknownVariant s)

/-- The wire value set of `actions::AddedRemoved`. -/
def AddedRemoved.values : List String := ["added", "removed"]

/-- `actions::TeamEvent` (src/actions.rs:44-52). -/
inductive TeamEvent where
  | created
  | deleted
  | edited
  | addedToRepository
  | removedFromRepository

/-- Derived `Serialize` of `actions::TeamEvent`. -/
def TeamEvent.render : TeamEvent → String
  | .created => "created"
  | .deleted => "deleted"
  | .edited => "edited"
  | .addedToRepository => "added_to_repository"
  | .removedFromRepository => "removed_from_repository"

/-- Derived `Deserialize` of `actions::TeamEvent`. -/
def TeamEvent.parse (s : String) : Except DecodeError TeamEvent :=
  if s = "created" then .ok .created
  else if s = "deleted" then .ok .deleted
  else if s = "edited" then .ok .edited
  else if s = "added_to_repository" then .ok .addedToRepository
  else if s = "removed_from_repository" then .ok .removedFromRepository
  else .error (.unknownVariant s)

/-- The wire value set of `actions::TeamEvent`. -/
def TeamEvent.values : List String :=
  ["created", "deleted", "edited", "added_to_repository", "removed_from_repository"]

end actions

/-- `struct Owner` (src/lib.rs:710). -/
def Owner : Ty := .record "Owner" (Fields.ofList [
  ("login", .string),
  ("id", .i64),
  ("node_id", .string),
  ("avatar_url", .string),
  ("gravatar_id", .string),
  ("url", .string),
  ("html_url", .string),
  ("followers_url", .string),
  ("following_url", .string),
  ("gists_url", .string),
  ("starred_url", .string),
  ("subscriptions_url", .string),
  ("organizations_url", .string),
  ("repos_url", .string),
  ("events_url", .string),
  ("received_events_url", .string),
  ("type", .string),
  ("site_admin", .boolean)])

/-- `struct Output` (src/lib.rs:661). -/
def Output : Ty := .record "Output" (Fields.ofList [
  ("title", .string),
  ("summary", .string),
  ("text", .string),
  ("annotations_count", .i64),
  ("annotations_url", .string)])

/-- `struct App` (src/lib.rs:697). -/
def App : Ty := .record "App" (Fields.ofList [
  ("id", .i64),
  ("node_id", .string),
  ("owner", Owner),
  ("name", .string),
  ("description", .value),
  ("external_url", .string),
  ("html_url", .string),
  ("created_at", .string),
  ("updated_at", .string)])

/-- `struct CheckSuite` (src/lib.rs:670). -/
def CheckSuite : Ty := .record "CheckSuite" (Fields.ofList [
  ("id", .i64),
  ("head_branch", .string),
  ("head_sha", .string),
  ("status", .string),
  ("conclusion", .string),
  ("url", .string),
  ("before", .string),
  ("after", .string),
  ("pull_requests", (.vec .value)),
  ("app", App),
  ("created_at", .string),
  ("updated_at", .string)])

/-- `struct CheckRun` (src/lib.rs:634). -/
def CheckRun : Ty := .record "CheckRun" (Fields.ofList [
  ("id", .i64),
  ("head_sha", .string),
  ("external_id", .string),
  ("url", .string),
  ("html_url", .string),
  ("status", .string),
  ("conclusion", (.option .string)),
  ("started_at", .string),
  ("completed_at", .string),
  ("output", Output),
  ("name", .string),
  ("check_suite", CheckSuite),
  ("app", App),
  ("pull_requests", (.vec .value))])

/-- `struct Repository` (src/lib.rs:733). -/
def Repository : Ty := .record "Repository" (Fields.ofList [
  ("id", .i64),
  ("node_id", .string),
  ("name", .string),
  ("full_name", .string),
  ("owner", Owner),
  ("private", .boolean),
  ("html_url", .string),
  ("description", .value),
  ("fork", .boolean),
  ("url", .string),
  ("forks_url", .string),
  ("keys_url", .string),
  ("collaborators_url", .string),
  ("teams_url", .string),
  ("hooks_url", .string),
  ("issue_events_url", .string),
  ("events_url", .string),
  ("assignees_url", .string),
  ("branches_url", .string),
  ("tags_url", .string),
  ("blobs_url", .string),
  ("git_tags_url", .string),
  ("git_refs_url", .string),
  ("trees_url", .string),
  ("statuses_url", .string),
  ("languages_url", .string),
  ("stargazers_url", .string),
  ("contributors_url", .string),
  ("subscribers_url", .string),
  ("subscription_url", .string),
  ("commits_url", .string),
  ("git_commits_url", .string),
  ("comments_url", .string),
  ("issue_comment_url", .string),
  ("contents_url", .string),
  ("compare_url", .string),
  ("merges_url", .string),
  ("archive_url", .string),
  ("downloads_url", .string),
  ("issues_url", .string),
  ("pulls_url", .string),
  ("milestones_url", .string),
  ("notifications_url", .string),
  ("labels_url", .string),
  ("releases_url", .string),
  ("deployments_url", .string),
  ("created_at", .string),
  ("updated_at", .string),
  ("pushed_at", .string),
  ("git_url", .string),
  ("ssh_url", .string),
  ("clone_url", .string),
  ("svn_url", .string),
  ("homepage", .value),
  ("size", .i64),
  ("stargazers_count", .i64),
  ("watchers_count", .i64),
  ("language", .value),
  ("has_issues", .boolean),
  ("has_projects", .boolean),
  ("has_downloads", .boolean),
  ("has_wiki", .boolean),
  ("has_pages", .boolean),
  ("forks_count", .i64),
  ("mirror_url", .value),
  ("archived", .boolean),
  ("open_issues_count", .i64),
  ("license", .value),
  ("forks", .i64),
  ("open_issues", .i64),
  ("watchers", .i64),
  ("default_branch", .string)])

/-- `struct Organization` (src/lib.rs:809). -/
def Organization : Ty := .record "Organization" (Fields.ofList [
  ("login", .string),
  ("id", .i64),
  ("node_id", .string),
  ("url", .string),
  ("repos_url", .string),
  ("events_url", .string),
  ("hooks_url", .string),
  ("issues_url", .string),
  ("members_url", .string),
  ("public_members_url", .string),
  ("avatar_url", .string),
  ("description", .string)])

/-- `struct Sender` (src/lib.rs:825). -/
def Sender : Ty := .record "Sender" (Fields.ofList [
  ("login", .string),
  ("id", .i64),
  ("node_id", .string),
  ("avatar_url", .string),
  ("gravatar_id", .string),
  ("url", .string),
  ("html_url", .string),
  ("followers_url", .string),
  ("following_url", .string),
  ("gists_url", .string),
  ("starred_url", .string),
  ("subscriptions_url", .string),
  ("organizations_url", .string),
  ("repos_url", .string),
  ("events_url", .string),
  ("received_events_url", .string),
  ("type", .string),
  ("site_admin", .boolean)])

/-- `struct Account` (src/lib.rs:1096). -/
def Account : Ty := .record "Account" (Fields.ofList [
  ("login", .string),
  ("id", .i64),
  ("node_id", .string),
  ("avatar_url", .string),
  ("gravatar_id", .string),
  ("url", .string),
  ("html_url", .string),
  ("followers_url", .string),
  ("following_url", .string),
  ("gists_url", .string),
  ("starred_url", .string),
  ("subscriptions_url", .string),
  ("organizations_url", .string),
  ("repos_url", .string),
  ("events_url", .string),
  ("received_events_url", .string),
  ("type", .string),
  ("site_admin", .boolean)])

/-- `struct Permissions` (src/lib.rs:1119). -/
def Permissions : Ty := .record "Permissions" (Fields.ofList [
  ("metadata", .string),
  ("contents", .string),
  ("issues", .string)])

/-- `struct Installation` (src/lib.rs:848). -/
def Installation : Ty := .record "Installation" (Fields.ofList [
  ("id", .i64),
  ("account", Account),
  ("repository_selection", .string),
  ("access_tokens_url", .string),
  ("repositories_url", .string),
  ("html_url", .string),
  ("app_id", .i64),
  ("target_id", .i64),
  ("target_type", .string),
  ("permissions", Permissions),
  ("events", (.vec .string)),
  ("created_at", .i64),
  ("updated_at", .i64),
  ("single_file_name", .string)])

/-- `struct GeneratedType` (src/lib.rs:866). -/
def GeneratedType : Ty := .record "GeneratedType" (Fields.ofList [
  ("action", .string),
  ("check_suite", CheckSuite),
  ("repository", Repository),
  ("organization", Organization),
  ("sender", Sender),
  ("installation", Installation)])

/-- `struct Author` (src/lib.rs:886). -/
def Author : Ty := .record "Author" (Fields.ofList [
  ("name", .string),
  ("email", .string)])

/-- `struct Committer` (src/lib.rs:894). -/
def Committer : Ty := .record "Committer" (Fields.ofList [
  ("name", .string),
  ("email", .string)])

/-- `struct HeadCommit` (src/lib.rs:876). -/
def HeadCommit : Ty := .record "HeadCommit" (Fields.ofList [
  ("id", .string),
  ("tree_id", .string),
  ("message", .string),
  ("timestamp", .string),
  ("author", Author),
  ("committer", Committer)])

/-- `struct User` (src/lib.rs:900). -/
def User : Ty := .record "User" (Fields.ofList [
  ("login", .string),
  ("id", .i64),
  ("node_id", .string),
  ("avatar_url", .string),
  ("gravatar_id", .string),
  ("url", .string),
  ("html_url", .string),
  ("followers_url", .string),
  ("following_url", .string),
  ("gists_url", .string),
  ("starred_url", .string),
  ("subscriptions_url", .string),
  ("organizations_url", .string),
  ("repos_url", .string),
  ("events_url", .string),
  ("received_events_url", .string),
  ("type", .string),
  ("site_admin", .boolean)])

/-- `struct Comment` (src/lib.rs:923). -/
def Comment : Ty := .record "Comment" (Fields.ofList [
  ("url", .string),
  ("html_url", .string),
  ("id", .i64),
  ("node_id", .string),
  ("user", User),
  ("position", .value),
  ("line", .value),
  ("path", .value),
  ("commit_id", .string),
  ("created_at", .string),
  ("updated_at", .string),
  ("author_association", .string),
  ("body", .string)])

/-- `struct Payload` (src/lib.rs:960). -/
def Payload : Ty := .record "Payload" (Fields.ofList [])

/-- `struct Creator` (src/lib.rs:963). -/
def Creator : Ty := .record "Creator" (Fields.ofList [
  ("login", .string),
  ("id", .i64),
  ("node_id", .string),
  ("avatar_url", .string),
  ("gravatar_id", .string),
  ("url", .string),
  ("html_url", .string),
  ("followers_url", .string),
  ("following_url", .string),
  ("gists_url", .string),
  ("starred_url", .string),
  ("subscriptions_url", .string),
  ("organizations_url", .string),
  ("repos_url", .string),
  ("events_url", .string),
  ("received_events_url", .string),
  ("type", .string),
  ("site_admin", .boolean)])

/-- `struct Deployment` (src/lib.rs:940). -/
def Deployment : Ty := .record "Deployment" (Fields.ofList [
  ("url", .string),
  ("id", .i64),
  ("node_id", .string),
  ("sha", .string),
  ("ref", .string),
  ("task", .string),
  ("payload", Payload),
  ("environment", .string),
  ("description", .value),
  ("creator", Creator),
  ("created_at", .string),
  ("updated_at", .string),
  ("statuses_url", .string),
  ("repository_url", .string)])

/-- `struct DeploymentStatus` (src/lib.rs:986). -/
def DeploymentStatus : Ty := .record "DeploymentStatus" (Fields.ofList [
  ("url", .string),
  ("id", .i64),
  ("node_id", .string),
  ("state", .string),
  ("creator", Creator),
  ("description", .string),
  ("target_url", .string),
  ("created_at", .string),
  ("updated_at", .string),
  ("deployment_url", .string),
  ("repository_url", .string)])

/-- `struct Forkee` (src/lib.rs:1004). -/
def Forkee : Ty := .record "Forkee" (Fields.ofList [
  ("id", .i64),
  ("node_id", .string),
  ("name", .string),
  ("full_name", .string),
  ("owner", Owner),
  ("private", .boolean),
  ("html_url", .string),
  ("description", .value),
  ("fork", .boolean),
  ("url", .string),
  ("forks_url", .string),
  ("keys_url", .string),
  ("collaborators_url", .string),
  ("teams_url", .string),
  ("hooks_url", .string),
  ("issue_events_url", .string),
  ("events_url", .string),
  ("assignees_url", .string),
  ("branches_url", .string),
  ("tags_url", .string),
  ("blobs_url", .string),
  ("git_tags_url", .string),
  ("git_refs_url", .string),
  ("trees_url", .string),
  ("statuses_url", .string),
  ("languages_url", .string),
  ("stargazers_url", .string),
  ("contributors_url", .string),
  ("subscribers_url", .string),
  ("subscription_url", .string),
  ("commits_url", .string),
  ("git_commits_url", .string),
  ("comments_url", .string),
  ("issue_comment_url", .string),
  ("contents_url", .string),
  ("compare_url", .string),
  ("merges_url", .string),
  ("archive_url", .string),
  ("downloads_url", .string),
  ("issues_url", .string),
  ("pulls_url", .string),
  ("milestones_url", .string),
  ("notifications_url", .string),
  ("labels_url", .string),
  ("releases_url", .string),
  ("deployments_url", .string),
  ("created_at", .string),
  ("updated_at", .string),
  ("pushed_at", .string),
  ("git_url", .string),
  ("ssh_url", .string),
  ("clone_url", .string),
  ("svn_url", .string),
  ("homepage", .value),
  ("size", .i64),
  ("stargazers_count", .i64),
  ("watchers_count", .i64),
  ("language", .value),
  ("has_issues", .boolean),
  ("has_projects", .boolean),
  ("has_downloads", .boolean),
  ("has_wiki", .boolean),
  ("has_pages", .boolean),
  ("forks_count", .i64),
  ("mirror_url", .value),
  ("archived", .boolean),
  ("open_issues_count", .i64),
  ("license", .value),
  ("forks", .i64),
  ("open_issues", .i64),
  ("watchers", .i64),
  ("default_branch", .string),
  ("public", .boolean)])

/-- `struct Page` (src/lib.rs:1081). -/
def Page : Ty := .record "Page" (Fields.ofList [
  ("page_name", .string),
  ("title", .string),
  ("summary", .value),
  ("action", .string),
  ("sha", .string),
  ("html_url", .string)])

/-- `struct PartialRepository` (src/lib.rs:1126). -/
def PartialRepository : Ty := .record "PartialRepository" (Fields.ofList [
  ("id", .i64),
  ("name", .string),
  ("full_name", .string),
  ("private", .boolean)])

/-- `struct RepositoriesRemoved` (src/lib.rs:1134). -/
def RepositoriesRemoved : Ty := .record "RepositoriesRemoved" (Fields.ofList [
  ("id", .i64),
  ("name", .string),
  ("full_name", .string),
  ("private", .boolean)])

/-- `struct Label` (src/lib.rs:1172). -/
def Label : Ty := .record "Label" (Fields.ofList [
  ("id", .i64),
  ("node_id", .string),
  ("url", .string),
  ("name", .string),
  ("color", .string),
  ("default", .boolean)])

/-- `struct Issue` (src/lib.rs:1143). -/
def Issue : Ty := .record "Issue" (Fields.ofList [
  ("url", .string),
  ("repository_url", .string),
  ("labels_url", .string),
  ("comments_url", .string),
  ("events_url", .string),
  ("html_url", .string),
  ("id", .i64),
  ("node_id", .string),
  ("number", .i64),
  ("title", .string),
  ("user", User),
  ("labels", (.vec Label)),
  ("state", .string),
  ("locked", .boolean),
  ("assignee", .value),
  ("assignees", (.vec .value)),
  ("milestone", .value),
  ("comments", .i64),
  ("created_at", .string),
  ("updated_at", .string),
  ("closed_at", .value),
  ("author_association", .string),
  ("body", .string)])

/-- `struct Member` (src/lib.rs:1182). -/
def Member : Ty := .record "Member" (Fields.ofList [
  ("login", .string),
  ("id", .i64),
  ("node_id", .string),
  ("avatar_url", .string),
  ("gravatar_id", .string),
  ("url", .string),
  ("html_url", .string),
  ("followers_url", .string),
  ("following_url", .string),
  ("gists_url", .string),
  ("starred_url", .string),
  ("subscriptions_url", .string),
  ("organizations_url", .string),
  ("repos_url", .string),
  ("events_url", .string),
  ("received_events_url", .string),
  ("type", .string),
  ("site_admin", .boolean)])

/-- `struct Permission` (src/lib.rs:1211). -/
def Permission : Ty := .record "Permission" (Fields.ofList [
  ("from", .string)])

/-- `struct MemberEventChanges` (src/lib.rs:1205). -/
def MemberEventChanges : Ty := .record "MemberEventChanges" (Fields.ofList [
  ("permission", Permission)])

/-- `struct Team` (src/lib.rs:1216). -/
def Team : Ty := .record "Team" (Fields.ofList [
  ("name", .string),
  ("id", .i64),
  ("node_id", .string),
  ("slug", .string),
  ("description", .string),
  ("privacy", .string),
  ("url", .string),
  ("members_url", .string),
  ("repositories_url", .string),
  ("permission", .string)])

/-- `struct Milestone` (src/lib.rs:1230). -/
def Milestone : Ty := .record "Milestone" (Fields.ofList [
  ("url", .string),
  ("html_url", .string),
  ("labels_url", .string),
  ("id", .i64),
  ("node_id", .string),
  ("number", .i64),
  ("title", .string),
  ("description", .string),
  ("creator", Creator),
  ("open_issues", .i64),
  ("closed_issues", .i64),
  ("state", .string),
  ("created_at", .string),
  ("updated_at", .string),
  ("due_on", .string),
  ("closed_at", .value)])

/-- `struct Membership` (src/lib.rs:1250). -/
def Membership : Ty := .record "Membership" (Fields.ofList [
  ("url", .string),
  ("state", .string),
  ("role", .string),
  ("organization_url", .string),
  ("user", User)])

/-- `struct Error` (src/lib.rs:1271). -/
def Error : Ty := .record "Error" (Fields.ofList [
  ("message", .value)])

/-- `struct Pusher` (src/lib.rs:1276). -/
def Pusher : Ty := .record "Pusher" (Fields.ofList [
  ("login", .string),
  ("id", .i64),
  ("node_id", .string),
  ("avatar_url", .string),
  ("gravatar_id", .string),
  ("url", .string),
  ("html_url", .string),
  ("followers_url", .string),
  ("following_url", .string),
  ("gists_url", .string),
  ("starred_url", .string),
  ("subscriptions_url", .string),
  ("organizations_url", .string),
  ("repos_url", .string),
  ("events_url", .string),
  ("received_events_url", .string),
  ("type", .string),
  ("site_admin", .boolean)])

/-- `struct Build` (src/lib.rs:1259). -/
def Build : Ty := .record "Build" (Fields.ofList [
  ("url", .string),
  ("status", .string),
  ("error", Error),
  ("pusher", Pusher),
  ("commit", .string),
  ("duration", .i64),
  ("created_at", .string),
  ("updated_at", .string)])

/-- `struct ProjectCard` (src/lib.rs:1299). -/
def ProjectCard : Ty := .record "ProjectCard" (Fields.ofList [
  ("url", .string),
  ("project_url", .string),
  ("column_url", .string),
  ("column_id", .i64),
  ("id", .i64),
  ("node_id", .string),
  ("note", .string),
  ("creator", Creator),
  ("created_at", .string),
  ("updated_at", .string)])

/-- `struct ProjectColumn` (src/lib.rs:1313). -/
def ProjectColumn : Ty := .record "ProjectColumn" (Fields.ofList [
  ("url", .string),
  ("project_url", .string),
  ("cards_url", .string),
  ("id", .i64),
  ("node_id", .string),
  ("name", .string),
  ("created_at", .string),
  ("updated_at", .string)])

/-- `struct Project` (src/lib.rs:1325). -/
def Project : Ty := .record "Project" (Fields.ofList [
  ("owner_url", .string),
  ("url", .string),
  ("html_url", .string),
  ("columns_url", .string),
  ("id", .i64),
  ("node_id", .string),
  ("name", .string),
  ("body", .string),
  ("number", .i64),
  ("state", .string),
  ("creator", Creator),
  ("created_at", .string),
  ("updated_at", .string)])

/-- `struct Head` (src/lib.rs:1391). -/
def Head : Ty := .record "Head" (Fields.ofList [
  ("label", .string),
  ("ref", .string),
  ("sha", .string),
  ("user", User),
  ("repo", Repository)])

/-- `struct Base` (src/lib.rs:1401). -/
def Base : Ty := .record "Base" (Fields.ofList [
  ("label", .string),
  ("ref", .string),
  ("sha", .string),
  ("user", User),
  ("repo", Repository)])

/-- `struct Link` (src/lib.rs:1424). -/
def Link : Ty := .record "Link" (Fields.ofList [
  ("href", .string)])

/-- `struct Links` (src/lib.rs:1411). -/
def Links : Ty := .record "Links" (Fields.ofList [
  ("self", Link),
  ("html", Link),
  ("issue", Link),
  ("comments", Link),
  ("review_comments", Link),
  ("review_comment", Link),
  ("commits", Link),
  ("statuses", Link)])

/-- `struct PullRequest` (src/lib.rs:1342). -/
def PullRequest : Ty := .record "PullRequest" (Fields.ofList [
  ("url", .string),
  ("id", .i64),
  ("node_id", .string),
  ("html_url", .string),
  ("diff_url", .string),
  ("patch_url", .string),
  ("issue_url", .string),
  ("number", .i64),
  ("state", .string),
  ("locked", .boolean),
  ("title", .string),
  ("user", User),
  ("body", .string),
  ("created_at", .string),
  ("updated_at", .string),
  ("closed_at", .string),
  ("merged_at", .value),
  ("merge_commit_sha", .string),
  ("assignee", .value),
  ("assignees", (.vec .value)),
  ("requested_reviewers", (.vec .value)),
  ("requested_teams", (.vec .value)),
  ("labels", (.vec .value)),
  ("milestone", .value),
  ("commits_url", .string),
  ("review_comments_url", .string),
  ("review_comment_url", .string),
  ("comments_url", .string),
  ("statuses_url", .string),
  ("head", Head),
  ("base", Base),
  ("_links", Links),
  ("author_association", .string),
  ("merged", .boolean),
  ("mergeable", .boolean),
  ("rebaseable", .boolean),
  ("mergeable_state", .string),
  ("merged_by", .value),
  ("comments", .i64),
  ("review_comments", .i64),
  ("maintainer_can_modify", .boolean),
  ("commits", .i64),
  ("additions", .i64),
  ("deletions", .i64),
  ("changed_files", .i64)])

/-- `struct ReviewLinks` (src/lib.rs:1444). -/
def ReviewLinks : Ty := .record "ReviewLinks" (Fields.ofList [
  ("html", Link),
  ("pull_request", PullRequest)])

/-- `struct Review` (src/lib.rs:1429). -/
def Review : Ty := .record "Review" (Fields.ofList [
  ("id", .i64),
  ("node_id", .string),
  ("user", User),
  ("body", .value),
  ("commit_id", .string),
  ("submitted_at", .string),
  ("state", .string),
  ("html_url", .string),
  ("pull_request_url", .string),
  ("author_association", .string),
  ("_links", ReviewLinks)])

/-- `struct Commit` (src/lib.rs:1450). -/
def Commit : Ty := .record "Commit" (Fields.ofList [
  ("sha", .string),
  ("message", .string),
  ("author", Author),
  ("url", .string),
  ("distinct", .boolean)])

/-- `struct ReleaseAuthor` (src/lib.rs:1486). -/
def ReleaseAuthor : Ty := .record "ReleaseAuthor" (Fields.ofList [
  ("login", .string),
  ("id", .i64),
  ("node_id", .string),
  ("avatar_url", .string),
  ("gravatar_id", .string),
  ("url", .string),
  ("html_url", .string),
  ("followers_url", .string),
  ("following_url", .string),
  ("gists_url", .string),
  ("starred_url", .string),
  ("subscriptions_url", .string),
  ("organizations_url", .string),
  ("repos_url", .string),
  ("events_url", .string),
  ("received_events_url", .string),
  ("type", .string),
  ("site_admin", .boolean)])

/-- `struct Release` (src/lib.rs:1464). -/
def Release : Ty := .record "Release" (Fields.ofList [
  ("url", .string),
  ("assets_url", .string),
  ("upload_url", .string),
  ("html_url", .string),
  ("id", .i64),
  ("node_id", .string),
  ("tag_name", .string),
  ("target_commitish", .string),
  ("name", .value),
  ("draft", .boolean),
  ("author", ReleaseAuthor),
  ("prerelease", .boolean),
  ("created_at", .string),
  ("published_at", .string),
  ("assets", (.vec .value)),
  ("tarball_url", .string),
  ("zipball_url", .string),
  ("body", .value)])

/-- `struct Alert` (src/lib.rs:1509). -/
def Alert : Ty := .record "Alert" (Fields.ofList [
  ("id", .i64),
  ("affected_range", .string),
  ("affected_package_name", .string),
  ("external_reference", .string),
  ("external_identifier", .string),
  ("fixed_in", .string),
  ("dismisser", User),
  ("dismiss_reason", .string),
  ("dismissed_at", .string)])

/-- `struct Identifier` (src/lib.rs:1536). -/
def Identifier : Ty := .record "Identifier" (Fields.ofList [
  ("value", .string),
  ("type", .string)])

/-- `struct Reference` (src/lib.rs:1543). -/
def Reference : Ty := .record "Reference" (Fields.ofList [
  ("url", .string)])

/-- `struct Package` (src/lib.rs:1556). -/
def Package : Ty := .record "Package" (Fields.ofList [
  ("ecosystem", .string),
  ("name", .string)])

/-- `struct FirstPatchedVersion` (src/lib.rs:1562). -/
def FirstPatchedVersion : Ty := .record "FirstPatchedVersion" (Fields.ofList [
  ("identifier", .string)])

/-- `struct Vulnerability` (src/lib.rs:1548). -/
def Vulnerability : Ty := .record "Vulnerability" (Fields.ofList [
  ("package", Package),
  ("severity", .string),
  ("vulnerable_version_range", .string),
  ("first_patched_version", FirstPatchedVersion)])

/-- `struct SecurityAdvisory` (src/lib.rs:1522). -/
def SecurityAdvisory : Ty := .record "SecurityAdvisory" (Fields.ofList [
  ("ghsa_id", .string),
  ("summary", .string),
  ("description", .string),
  ("severity", .string),
  ("identifiers", (.vec Identifier)),
  ("references", (.vec Reference)),
  ("published_at", .string),
  ("updated_at", .string),
  ("withdrawn_at", .value),
  ("vulnerabilities", (.vec Vulnerability))])

/-- `struct AuthorDate` (src/lib.rs:1591). -/
def AuthorDate : Ty := .record "AuthorDate" (Fields.ofList [
  ("name", .string),
  ("email", .string),
  ("date", .string)])

/-- `struct CommitterDate` (src/lib.rs:1598). -/
def CommitterDate : Ty := .record "CommitterDate" (Fields.ofList [
  ("name", .string),
  ("email", .string),
  ("date", .string)])

/-- `struct Tree` (src/lib.rs:1605). -/
def Tree : Ty := .record "Tree" (Fields.ofList [
  ("sha", .string),
  ("url", .string)])

/-- `struct Verification` (src/lib.rs:1611). -/
def Verification : Ty := .record "Verification" (Fields.ofList [
  ("verified", .boolean),
  ("reason", .string),
  ("signature", .string),
  ("payload", .string)])

/-- `struct CommitTree` (src/lib.rs:1580). -/
def CommitTree : Ty := .record "CommitTree" (Fields.ofList [
  ("author", AuthorDate),
  ("committer", CommitterDate),
  ("message", .string),
  ("tree", Tree),
  ("url", .string),
  ("comment_count", .i64),
  ("verification", Verification)])

/-- `struct StatusEventCommitNode` (src/lib.rs:1567). -/
def StatusEventCommitNode : Ty := .record "StatusEventCommitNode" (Fields.ofList [
  ("sha", .string),
  ("node_id", .string),
  ("commit", CommitTree),
  ("url", .string),
  ("html_url", .string),
  ("comments_url", .string),
  ("author", AuthorDate),
  ("committer", CommitterDate),
  ("parents", (.vec .value))])

/-- `struct Bran` (src/lib.rs:1619). -/
def Bran : Ty := .record "Bran" (Fields.ofList [
  ("name", .string),
  ("commit", Commit)])

/-- `struct TeamEventPermissions` (src/lib.rs:1702). -/
def TeamEventPermissions : Ty := .record "TeamEventPermissions" (Fields.ofList [
  ("pull", .boolean),
  ("push", .boolean),
  ("admin", .boolean)])

/-- `struct TeamEventRepository` (src/lib.rs:1625). -/
def TeamEventRepository : Ty := .record "TeamEventRepository" (Fields.ofList [
  ("id", .i64),
  ("node_id", .string),
  ("name", .string),
  ("full_name", .string),
  ("owner", Owner),
  ("private", .boolean),
  ("html_url", .string),
  ("description", .value),
  ("fork", .boolean),
  ("url", .string),
  ("forks_url", .string),
  ("keys_url", .string),
  ("collaborators_url", .string),
  ("teams_url", .string),
  ("hooks_url", .string),
  ("issue_events_url", .string),
  ("events_url", .string),
  ("assignees_url", .string),
  ("branches_url", .string),
  ("tags_url", .string),
  ("blobs_url", .string),
  ("git_tags_url", .string),
  ("git_refs_url", .string),
  ("trees_url", .string),
  ("statuses_url", .string),
  ("languages_url", .string),
  ("stargazers_url", .string),
  ("contributors_url", .string),
  ("subscribers_url", .string),
  ("subscription_url", .string),
  ("commits_url", .string),
  ("git_commits_url", .string),
  ("comments_url", .string),
  ("issue_comment_url", .string),
  ("contents_url", .string),
  ("compare_url", .string),
  ("merges_url", .string),
  ("archive_url", .string),
  ("downloads_url", .string),
  ("issues_url", .string),
  ("pulls_url", .string),
  ("milestones_url", .string),
  ("notifications_url", .string),
  ("labels_url", .string),
  ("releases_url", .string),
  ("deployments_url", .string),
  ("created_at", .string),
  ("updated_at", .string),
  ("pushed_at", .string),
  ("git_url", .string),
  ("ssh_url", .string),
  ("clone_url", .string),
  ("svn_url", .string),
  ("homepage", .value),
  ("size", .i64),
  ("stargazers_count", .i64),
  ("watchers_count", .i64),
  ("language", .value),
  ("has_issues", .boolean),
  ("has_projects", .boolean),
  ("has_downloads", .boolean),
  ("has_wiki", .boolean),
  ("has_pages", .boolean),
  ("forks_count", .i64),
  ("mirror_url", .value),
  ("archived", .boolean),
  ("open_issues_count", .i64),
  ("license", .value),
  ("forks", .i64),
  ("open_issues", .i64),
  ("watchers", .i64),
  ("default_branch", .string),
  ("permissions", TeamEventPermissions)])

/-- `struct IssueEvent` (src/lib.rs:618). -/
def IssueEvent : Ty := .record "IssueEvent" (Fields.ofList [
  ("action", .string),
  ("issue", Issue),
  ("changes", (.option .value)),
  ("repository", Repository),
  ("sender", Sender)])

namespace Event

/-- The payload shape of `Event::CheckRunEvent` (src/lib.rs:31). -/
def CheckRunEvent : Ty := .record "CheckRunEvent" (Fields.ofList [
  ("action", (.action actions.Check.values)),
  ("check_run", CheckRun),
  ("repository", Repository),
  ("organization", Organization),
  ("sender", Sender),
  ("installation", Installation)])

/-- The payload shape of `Event::CheckSuiteEvent` (src/lib.rs:67). -/
def CheckSuiteEvent : Ty := .record "CheckSuiteEvent" (Fields.ofList [
  ("action", (.action actions.Check.values)),
  ("check_suite", CheckSuite)])

/-- The payload shape of `Event::CommitCommentEvent` (src/lib.rs:77). -/
def CommitCommentEvent : Ty := .record "CommitCommentEvent" (Fields.ofList [
  ("action", (.action actions.Created.values)),
  ("comment", Comment),
  ("repository", Repository),
  ("sender", Sender)])

/-- The payload shape of `Event::CreateEvent` (src/lib.rs:90). -/
def CreateEvent : Ty := .record "CreateEvent" (Fields.ofList [
  ("ref", .string),
  ("ref_type", .string),
  ("master_branch", .string),
  ("description", .value),
  ("pusher_type", .string),
  ("repository", Repository),
  ("sender", Sender)])

/-- The payload shape of `Event::DeleteEvent` (src/lib.rs:108). -/
def DeleteEvent : Ty := .record "DeleteEvent" (Fields.ofList [
  ("ref", .string),
  ("ref_type", .string),
  ("pusher_type", .string)])

/-- The payload shape of `Event::DeploymentEvent` (src/lib.rs:120). -/
def DeploymentEvent : Ty := .record "DeploymentEvent" (Fields.ofList [
  ("deployment", Deployment),
  ("repository", Repository),
  ("sender", Sender)])

/-- The payload shape of `Event::DeploymentStatusEvent` (src/lib.rs:132). -/
def DeploymentStatusEvent : Ty := .record "DeploymentStatusEvent" (Fields.ofList [
  ("deployment_status", DeploymentStatus),
  ("deployment", Deployment),
  ("repository", Repository),
  ("sender", Sender)])

/-- The payload shape of `Event::ForkEvent` (src/lib.rs:145). -/
def ForkEvent : Ty := .record "ForkEvent" (Fields.ofList [
  ("forkee", Forkee),
  ("repository", Repository),
  ("sender", Sender)])

/-- The payload shape of `Event::GitHubAppAuthorizationEvent` (src/lib.rs:165). -/
def GitHubAppAuthorizationEvent : Ty := .record "GitHubAppAuthorizationEvent" (Fields.ofList [
  ("action", (.action actions.Revoked.values)),
  ("sender", Sender)])

/-- The payload shape of `Event::GollumEvent` (src/lib.rs:171). -/
def GollumEvent : Ty := .record "GollumEvent" (Fields.ofList [
  ("pages", (.vec Page)),
  ("repository", Repository),
  ("sender", Sender)])

/-- The payload shape of `Event::InstallationEvent` (src/lib.rs:178). -/
def InstallationEvent : Ty := .record "InstallationEvent" (Fields.ofList [
  ("action", (.action actions.CreatedDeleted.values)),
  ("installation", Installation),
  ("repositories", (.vec PartialRepository)),
  ("sender", Sender)])

/-- The payload shape of `Event::InstallationRepositoriesEvent` (src/lib.rs:187). -/
def InstallationRepositoriesEvent : Ty := .record "InstallationRepositoriesEvent" (Fields.ofList [
  ("action", (.action actions.AddedRemoved.values)),
  ("installation", Installation),
  ("repository_selection", .string),
  ("repositories_added", (.vec PartialRepository)),
  ("repositories_removed", (.vec RepositoriesRemoved)),
  ("sender", Sender)])

/-- The payload shape of `Event::IssueCommentEvent` (src/lib.rs:201). -/
def IssueCommentEvent : Ty := .record "IssueCommentEvent" (Fields.ofList [
  ("action", (.action actions.CrEdDel.values)),
  ("changes", (.option .value)),
  ("issue", Issue),
  ("comment", Comment),
  ("repository", Repository),
  ("sender", Sender)])

/-- The payload shape of `Event::LabelEvent` (src/lib.rs:219). -/
def LabelEvent : Ty := .record "LabelEvent" (Fields.ofList [
  ("action", (.action actions.CrEdDel.values)),
  ("label", Label),
  ("changes", (.option .value)),
  ("repository", Repository),
  ("sender", Sender)])

/-- The payload shape of `Event::MemberEvent` (src/lib.rs:235). -/
def MemberEvent : Ty := .record "MemberEvent" (Fields.ofList [
  ("action", .string),
  ("member", Member),
  ("changes", MemberEventChanges),
  ("repository", Repository),
  ("sender", Sender)])

/-- The payload shape of `Event::MembershipEvent` (src/lib.rs:250). -/
def MembershipEvent : Ty := .record "MembershipEvent" (Fields.ofList [
  ("action", .string),
  ("scope", .string),
  ("member", Member),
  ("sender", Sender),
  ("team", Team),
  ("organization", Organization)])

/-- The payload shape of `Event::MilestoneEvent` (src/lib.rs:267). -/
def MilestoneEvent : Ty := .record "MilestoneEvent" (Fields.ofList [
  ("action", .string),
  ("milestone", Milestone),
  ("changes", (.option .value)),
  ("repository", Repository),
  ("sender", Sender)])

/-- The payload shape of `Event::OrganizationEvent` (src/lib.rs:285). -/
def OrganizationEvent : Ty := .record "OrganizationEvent" (Fields.ofList [
  ("action", .string),
  ("invitation", (.option .value)),
  ("membership", Membership),
  ("organization", Organization),
  ("sender", Sender)])

/-- The payload shape of `Event::OrgBlockEvent` (src/lib.rs:301). -/
def OrgBlockEvent : Ty := .record "OrgBlockEvent" (Fields.ofList [
  ("action", .string),
  ("blocked_user", User),
  ("organization", Organization),
  ("sender", Sender)])

/-- The payload shape of `Event::PageBuildEvent` (src/lib.rs:316). -/
def PageBuildEvent : Ty := .record "PageBuildEvent" (Fields.ofList [
  ("id", .i64),
  ("build", Build),
  ("repository", Repository),
  ("sender", Sender)])

/-- The payload shape of `Event::ProjectCardEvent` (src/lib.rs:325). -/
def ProjectCardEvent : Ty := .record "ProjectCardEvent" (Fields.ofList [
  ("action", .string),
  ("changes", (.option .value)),
  ("after_id", (.option .isize)),
  ("project_card", ProjectCard),
  ("repository", Repository),
  ("sender", Sender)])

/-- The payload shape of `Event::ProjectColumnEvent` (src/lib.rs:343). -/
def ProjectColumnEvent : Ty := .record "ProjectColumnEvent" (Fields.ofList [
  ("action", .string),
  ("changes", .value),
  ("after_id", (.option .isize)),
  ("project_column", ProjectColumn),
  ("repository", Repository),
  ("sender", Sender)])

/-- The payload shape of `Event::ProjectEvent` (src/lib.rs:359). -/
def ProjectEvent : Ty := .record "ProjectEvent" (Fields.ofList [
  ("action", .string),
  ("changes", .value),
  ("project", Project),
  ("repository", Repository),
  ("sender", Sender)])

/-- The payload shape of `Event::PublicEvent` (src/lib.rs:374). -/
def PublicEvent : Ty := .record "PublicEvent" (Fields.ofList [
  ("repository", Repository),
  ("sender", Sender)])

/-- The payload shape of `Event::PullRequestEvent` (src/lib.rs:383). -/
def PullRequestEvent : Ty := .record "PullRequestEvent" (Fields.ofList [
  ("action", .string),
  ("number", .i64),
  ("changes", .value),
  ("pull_request", PullRequest),
  ("repository", Repository),
  ("sender", Sender)])

/-- The payload shape of `Event::PullRequestReviewEvent` (src/lib.rs:411). -/
def PullRequestReviewEvent : Ty := .record "PullRequestReviewEvent" (Fields.ofList [
  ("action", .string),
  ("changes", .value),
  ("review", Review),
  ("pull_request", PullRequest),
  ("repository", Repository),
  ("sender", Sender)])

/-- The payload shape of `Event::PullRequestReviewCommentEvent` (src/lib.rs:426). -/
def PullRequestReviewCommentEvent : Ty := .record "PullRequestReviewCommentEvent" (Fields.ofList [
  ("action", .string),
  ("comment", Comment),
  ("changes", .value),
  ("pull_request", PullRequest),
  ("repository", Repository),
  ("sender", Sender)])

/-- The payload shape of `Event::PushEvent` (src/lib.rs:446). -/
def PushEvent : Ty := .record "PushEvent" (Fields.ofList [
  ("ref", .string),
  ("head", (.option .string)),
  ("before", .string),
  ("after", .string),
  ("size", .isize),
  ("created", .boolean),
  ("deleted", .boolean),
  ("forced", .boolean),
  ("base_ref", .value),
  ("compare", .string),
  ("commits", (.vec Commit)),
  ("head_commit", .value),
  ("repository", Repository),
  ("pusher", Pusher),
  ("sender", Sender)])

/-- The payload shape of `Event::ReleaseEvent` (src/lib.rs:476). -/
def ReleaseEvent : Ty := .record "ReleaseEvent" (Fields.ofList [
  ("action", .string),
  ("release", Release),
  ("repository", Repository),
  ("sender", Sender)])

/-- The payload shape of `Event::RepositoryEvent` (src/lib.rs:489). -/
def RepositoryEvent : Ty := .record "RepositoryEvent" (Fields.ofList [
  ("action", .string),
  ("repository", Repository),
  ("sender", Sender)])

/-- The payload shape of `Event::RepositoryImportEvent` (src/lib.rs:503). -/
def RepositoryImportEvent : Ty := .record "RepositoryImportEvent" (Fields.ofList [
  ("status", .string),
  ("repository", Repository),
  ("organization", Organization),
  ("sender", Sender)])

/-- The payload shape of `Event::RepositoryVulnerabilityAlertEvent` (src/lib.rs:515). -/
def RepositoryVulnerabilityAlertEvent : Ty := .record "RepositoryVulnerabilityAlertEvent" (Fields.ofList [
  ("action", .string),
  ("alert", Alert)])

/-- The payload shape of `Event::SecurityAdvisoryEvent` (src/lib.rs:528). -/
def SecurityAdvisoryEvent : Ty := .record "SecurityAdvisoryEvent" (Fields.ofList [
  ("action", .string),
  ("security_advisory", SecurityAdvisory)])

/-- The payload shape of `Event::StatusEvent` (src/lib.rs:537). -/
def StatusEvent : Ty := .record "StatusEvent" (Fields.ofList [
  ("id", .i64),
  ("sha", .string),
  ("name", .string),
  ("target_url", (.option .string)),
  ("context", .string),
  ("description", (.option .string)),
  ("state", .string),
  ("commit", Commit),
  ("branches", (.vec Bran)),
  ("created_at", .string),
  ("updated_at", .string),
  ("repository", Repository),
  ("sender", Sender)])

/-- The payload shape of `Event::TeamEvent` (src/lib.rs:565). -/
def TeamEvent : Ty := .record "TeamEvent" (Fields.ofList [
  ("action", (.action actions.TeamEvent.values)),
  ("team", Team),
  ("changes", .value),
  ("repository", TeamEventRepository),
  ("organization", Organization),
  ("sender", Sender)])

/-- The payload shape of `Event::TeamAddEvent` (src/lib.rs:595). -/
def TeamAddEvent : Ty := .record "TeamAddEvent" (Fields.ofList [
  ("team", Team),
  ("repository", Repository),
  ("organization", Organization),
  ("sender", Sender)])

/-- The payload shape of `Event::WatchEvent` (src/lib.rs:610). -/
def WatchEvent : Ty := .record "WatchEvent" (Fields.ofList [
  ("action", .string),
  ("repository", Repository),
  ("sender", Sender)])

/-- The payload shape of the newtype variant `Event::IssueEvent(IssueEvent)`
(src/lib.rs:217): the content delegates to `struct IssueEvent`. -/
def IssueEvent : Ty := GithubEvents.IssueEvent

end Event

/-- The `Event` enum (src/lib.rs:10-616) as an externally tagged serde enum:
each variant name paired with its payload shape, in declaration order. -/
def eventVariants : List (String × Ty) := [
  ("CheckRunEvent", Event.CheckRunEvent),
  ("CheckSuiteEvent", Event.CheckSuiteEvent),
  ("CommitCommentEvent", Event.CommitCommentEvent),
  ("CreateEvent", Event.CreateEvent),
  ("DeleteEvent", Event.DeleteEvent),
  ("DeploymentEvent", Event.DeploymentEvent),
  ("DeploymentStatusEvent", Event.DeploymentStatusEvent),
  ("ForkEvent", Event.ForkEvent),
  ("GitHubAppAuthorizationEvent", Event.GitHubAppAuthorizationEvent),
  ("GollumEvent", Event.GollumEvent),
  ("InstallationEvent", Event.InstallationEvent),
  ("InstallationRepositoriesEvent", Event.InstallationRepositoriesEvent),
  ("IssueCommentEvent", Event.IssueCommentEvent),
  ("IssueEvent", Event.IssueEvent),
  ("LabelEvent", Event.LabelEvent),
  ("MemberEvent", Event.MemberEvent),
  ("MembershipEvent", Event.MembershipEvent),
  ("MilestoneEvent", Event.MilestoneEvent),
  ("OrganizationEvent", Event.OrganizationEvent),
  ("OrgBlockEvent", Event.OrgBlockEvent),
  ("PageBuildEvent", Event.PageBuildEvent),
  ("ProjectCardEvent", Event.ProjectCardEvent),
  ("ProjectColumnEvent", Event.ProjectColumnEvent),
  ("ProjectEvent", Event.ProjectEvent),
  ("PublicEvent", Event.PublicEvent),
  ("PullRequestEvent", Event.PullRequestEvent),
  ("PullRequestReviewEvent", Event.PullRequestReviewEvent),
  ("PullRequestReviewCommentEvent", Event.PullRequestReviewCommentEvent),
  ("PushEvent", Event.PushEvent),
  ("ReleaseEvent", Event.ReleaseEvent),
  ("RepositoryEvent", Event.RepositoryEvent),
  ("RepositoryImportEvent", Event.RepositoryImportEvent),
  ("RepositoryVulnerabilityAlertEvent", Event.RepositoryVulnerabilityAlertEvent),
  ("SecurityAdvisoryEvent", Event.SecurityAdvisoryEvent),
  ("StatusEvent", Event.StatusEvent),
  ("TeamEvent", Event.TeamEvent),
  ("TeamAddEvent", Event.TeamAddEvent),
  ("WatchEvent", Event.WatchEvent)]


/-- Derived `Deserialize` of the externally tagged `Event` enum, as executed
by serde_json: the document must be an object; its first key is read as the
variant name (an unrecognized name is serde's "unknown variant" error); the
variant's payload is decoded against that variant's declared shape; any
further entry after the variant entry is a parse error.  serde_json also
accepts a bare string naming a unit variant, but `Event` has no unit
variants, so string documents always fail (for a recognized variant name
with an invalid-type error, modelled with expected kind "struct variant").
Every other document kind is an invalid-type error. -/
def decodeEvent : Json → Except DecodeError (String × Val)
  | .obj [] => .error .expectedVariantKey
  | .obj ((k, payload) :: rest) =>
    match lookupKey eventVariants k with
    | none => .error (.unknownVariant k)
    | some t =>
      match Ty.decode t payload with
      | .error e => .error e
      | .ok v =>
        match rest with
        | [] => .ok (k, v)
        | _ => .error .trailingKeys
  | .str s =>
    match lookupKey eventVariants s with
    | none => .error (.unknownVariant s)
    | some _ => .error (.invalidType "struct variant" "unit variant")
  | j => .error (.invalidType "map" j.kindName)

/-- Derived `Serialize` of the externally tagged `Event` enum: an object with
the single variant-name key and the serialized payload. -/
def encodeEvent (tag : String) (v : Val) : Json :=
  .obj [(tag, v.encode)]

/-- Every variant payload shape of `Event` is well-formed (all field lists
use pairwise distinct wire names). -/
def eventVariantsWf : Bool :=
  eventVariants.all fun p => p.2.wfB

/-- A minimal valid document for `struct Owner` (every field with a
simple value of its declared type). -/
def sampleOwner : Json := .obj [
  ("login", .str ""),
  ("id", .num 0),
  ("node_id", .str ""),
  ("avatar_url", .str ""),
  ("gravatar_id", .str ""),
  ("url", .str ""),
  ("html_url", .str ""),
  ("followers_url", .str ""),
  ("following_url", .str ""),
  ("gists_url", .str ""),
  ("starred_url", .str ""),
  ("subscriptions_url", .str ""),
  ("organizations_url", .str ""),
  ("repos_url", .str ""),
  ("events_url", .str ""),
  ("received_events_url", .str ""),
  ("type", .str ""),
  ("site_admin", .bool false)]

/-- The value `sampleOwner` decodes to. -/
def sampleOwnerVal : Val := .record [
  ("login", .str ""),
  ("id", .int 0),
  ("node_id", .str ""),
  ("avatar_url", .str ""),
  ("gravatar_id", .str ""),
  ("url", .str ""),
  ("html_url", .str ""),
  ("followers_url", .str ""),
  ("following_url", .str ""),
  ("gists_url", .str ""),
  ("starred_url", .str ""),
  ("subscriptions_url", .str ""),
  ("organizations_url", .str ""),
  ("repos_url", .str ""),
  ("events_url", .str ""),
  ("received_events_url", .str ""),
  ("type", .str ""),
  ("site_admin", .bool false)]

/-- A minimal valid document for `struct Output` (every field with a
simple value of its declared type). -/
def sampleOutput : Json := .obj [
  ("title", .str ""),
  ("summary", .str ""),
  ("text", .str ""),
  ("annotations_count", .num 0),
  ("annotations_url", .str "")]

/-- The value `sampleOutput` decodes to. -/
def sampleOutputVal : Val := .record [
  ("title", .str ""),
  ("summary", .str ""),
  ("text", .str ""),
  ("annotations_count", .int 0),
  ("annotations_url", .str "")]

/-- A minimal valid document for `struct App` (every field with a
simple value of its declared type). -/
def sampleApp : Json := .obj [
  ("id", .num 0),
  ("node_id", .str ""),
  ("owner", sampleOwner),
  ("name", .str ""),
  ("description", .null),
  ("external_url", .str ""),
  ("html_url", .str ""),
  ("created_at", .str ""),
  ("updated_at", .str "")]

/-- The value `sampleApp` decodes to. -/
def sampleAppVal : Val := .record [
  ("id", .int 0),
  ("node_id", .str ""),
  ("owner", sampleOwnerVal),
  ("name", .str ""),
  ("description", .json .null),
  ("external_url", .str ""),
  ("html_url", .str ""),
  ("created_at", .str ""),
  ("updated_at", .str "")]

/-- A minimal valid document for `struct CheckSuite` (every field with a
simple value of its declared type). -/
def sampleCheckSuite : Json := .obj [
  ("id", .num 0),
  ("head_branch", .str ""),
  ("head_sha", .str ""),
  ("status", .str ""),
  ("conclusion", .str ""),
  ("url", .str ""),
  ("before", .str ""),
  ("after", .str ""),
  ("pull_requests", .arr []),
  ("app", sampleApp),
  ("created_at", .str ""),
  ("updated_at", .str "")]

/-- The value `sampleCheckSuite` decodes to. -/
def sampleCheckSuiteVal : Val := .record [
  ("id", .int 0),
  ("head_branch", .str ""),
  ("head_sha", .str ""),
  ("status", .str ""),
  ("conclusion", .str ""),
  ("url", .str ""),
  ("before", .str ""),
  ("after", .str ""),
  ("pull_requests", .list []),
  ("app", sampleAppVal),
  ("created_at", .str ""),
  ("updated_at", .str "")]

/-- A minimal valid document for `struct CheckRun` (every field with a
simple value of its declared type). -/
def sampleCheckRun : Json := .obj [
  ("id", .num 0),
  ("head_sha", .str ""),
  ("external_id", .str ""),
  ("url", .str ""),
  ("html_url", .str ""),
  ("status", .str ""),
  ("conclusion", .null),
  ("started_at", .str ""),
  ("completed_at", .str ""),
  ("output", sampleOutput),
  ("name", .str ""),
  ("check_suite", sampleCheckSuite),
  ("app", sampleApp),
  ("pull_requests", .arr [])]

/-- The value `sampleCheckRun` decodes to. -/
def sampleCheckRunVal : Val := .record [
  ("id", .int 0),
  ("head_sha", .str ""),
  ("external_id", .str ""),
  ("url", .str ""),
  ("html_url", .str ""),
  ("status", .str ""),
  ("conclusion", .opt none),
  ("started_at", .str ""),
  ("completed_at", .str ""),
  ("output", sampleOutputVal),
  ("name", .str ""),
  ("check_suite", sampleCheckSuiteVal),
  ("app", sampleAppVal),
  ("pull_requests", .list [])]

/-- A minimal valid document for `struct Repository` (every field with a
simple value of its declared type). -/
def sampleRepository : Json := .obj [
  ("id", .num 0),
  ("node_id", .str ""),
  ("name", .str ""),
  ("full_name", .str ""),
  ("owner", sampleOwner),
  ("private", .bool false),
  ("html_url", .str ""),
  ("description", .null),
  ("fork", .bool false),
  ("url", .str ""),
  ("forks_url", .str ""),
  ("keys_url", .str ""),
  ("collaborators_url", .str ""),
  ("teams_url", .str ""),
  ("hooks_url", .str ""),
  ("issue_events_url", .str ""),
  ("events_url", .str ""),
  ("assignees_url", .str ""),
  ("branches_url", .str ""),
  ("tags_url", .str ""),
  ("blobs_url", .str ""),
  ("git_tags_url", .str ""),
  ("git_refs_url", .str ""),
  ("trees_url", .str ""),
  ("statuses_url", .str ""),
  ("languages_url", .str ""),
  ("stargazers_url", .str ""),
  ("contributors_url", .str ""),
  ("subscribers_url", .str ""),
  ("subscription_url", .str ""),
  ("commits_url", .str ""),
  ("git_commits_url", .str ""),
  ("comments_url", .str ""),
  ("issue_comment_url", .str ""),
  ("contents_url", .str ""),
  ("compare_url", .str ""),
  ("merges_url", .str ""),
  ("archive_url", .str ""),
  ("downloads_url", .str ""),
  ("issues_url", .str ""),
  ("pulls_url", .str ""),
  ("milestones_url", .str ""),
  ("notifications_url", .str ""),
  ("labels_url", .str ""),
  ("releases_url", .str ""),
  ("deployments_url", .str ""),
  ("created_at", .str ""),
  ("updated_at", .str ""),
  ("pushed_at", .str ""),
  ("git_url", .str ""),
  ("ssh_url", .str ""),
  ("clone_url", .str ""),
  ("svn_url", .str ""),
  ("homepage", .null),
  ("size", .num 0),
  ("stargazers_count", .num 0),
  ("watchers_count", .num 0),
  ("language", .null),
  ("has_issues", .bool false),
  ("has_projects", .bool false),
  ("has_downloads", .bool false),
  ("has_wiki", .bool false),
  ("has_pages", .bool false),
  ("forks_count", .num 0),
  ("mirror_url", .null),
  ("archived", .bool false),
  ("open_issues_count", .num 0),
  ("license", .null),
  ("forks", .num 0),
  ("open_issues", .num 0),
  ("watchers", .num 0),
  ("default_branch", .str "")]

/-- The value `sampleRepository` decodes to. -/
def sampleRepositoryVal : Val := .record [
  ("id", .int 0),
  ("node_id", .str ""),
  ("name", .str ""),
  ("full_name", .str ""),
  ("owner", sampleOwnerVal),
  ("private", .bool false),
  ("html_url", .str ""),
  ("description", .json .null),
  ("fork", .bool false),
  ("url", .str ""),
  ("forks_url", .str ""),
  ("keys_url", .str ""),
  ("collaborators_url", .str ""),
  ("teams_url", .str ""),
  ("hooks_url", .str ""),
  ("issue_events_url", .str ""),
  ("events_url", .str ""),
  ("assignees_url", .str ""),
  ("branches_url", .str ""),
  ("tags_url", .str ""),
  ("blobs_url", .str ""),
  ("git_tags_url", .str ""),
  ("git_refs_url", .str ""),
  ("trees_url", .str ""),
  ("statuses_url", .str ""),
  ("languages_url", .str ""),
  ("stargazers_url", .str ""),
  ("contributors_url", .str ""),
  ("subscribers_url", .str ""),
  ("subscription_url", .str ""),
  ("commits_url", .str ""),
  ("git_commits_url", .str ""),
  ("comments_url", .str ""),
  ("issue_comment_url", .str ""),
  ("contents_url", .str ""),
  ("compare_url", .str ""),
  ("merges_url", .str ""),
  ("archive_url", .str ""),
  ("downloads_url", .str ""),
  ("issues_url", .str ""),
  ("pulls_url", .str ""),
  ("milestones_url", .str ""),
  ("notifications_url", .str ""),
  ("labels_url", .str ""),
  ("releases_url", .str ""),
  ("deployments_url", .str ""),
  ("created_at", .str ""),
  ("updated_at", .str ""),
  ("pushed_at", .str ""),
  ("git_url", .str ""),
  ("ssh_url", .str ""),
  ("clone_url", .str ""),
  ("svn_url", .str ""),
  ("homepage", .json .null),
  ("size", .int 0),
  ("stargazers_count", .int 0),
  ("watchers_count", .int 0),
  ("language", .json .null),
  ("has_issues", .bool false),
  ("has_projects", .bool false),
  ("has_downloads", .bool false),
  ("has_wiki", .bool false),
  ("has_pages", .bool false),
  ("forks_count", .int 0),
  ("mirror_url", .json .null),
  ("archived", .bool false),
  ("open_issues_count", .int 0),
  ("license", .json .null),
  ("forks", .int 0),
  ("open_issues", .int 0),
  ("watchers", .int 0),
  ("default_branch", .str "")]

/-- A minimal valid document for `struct Organization` (every field with a
simple value of its declared type). -/
def sampleOrganization : Json := .obj [
  ("login", .str ""),
  ("id", .num 0),
  ("node_id", .str ""),
  ("url", .str ""),
  ("repos_url", .str ""),
  ("events_url", .str ""),
  ("hooks_url", .str ""),
  ("issues_url", .str ""),
  ("members_url", .str ""),
  ("public_members_url", .str ""),
  ("avatar_url", .str ""),
  ("description", .str "")]

/-- The value `sampleOrganization` decodes to. -/
def sampleOrganizationVal : Val := .record [
  ("login", .str ""),
  ("id", .int 0),
  ("node_id", .str ""),
  ("url", .str ""),
  ("repos_url", .str ""),
  ("events_url", .str ""),
  ("hooks_url", .str ""),
  ("issues_url", .str ""),
  ("members_url", .str ""),
  ("public_members_url", .str ""),
  ("avatar_url", .str ""),
  ("description", .str "")]

/-- A minimal valid document for `struct Sender` (every field with a
simple value of its declared type). -/
def sampleSender : Json := .obj [
  ("login", .str ""),
  ("id", .num 0),
  ("node_id", .str ""),
  ("avatar_url", .str ""),
  ("gravatar_id", .str ""),
  ("url", .str ""),
  ("html_url", .str ""),
  ("followers_url", .str ""),
  ("following_url", .str ""),
  ("gists_url", .str ""),
  ("starred_url", .str ""),
  ("subscriptions_url", .str ""),
  ("organizations_url", .str ""),
  ("repos_url", .str ""),
  ("events_url", .str ""),
  ("received_events_url", .str ""),
  ("type", .str ""),
  ("site_admin", .bool false)]

/-- The value `sampleSender` decodes to. -/
def sampleSenderVal : Val := .record [
  ("login", .str ""),
  ("id", .int 0),
  ("node_id", .str ""),
  ("avatar_url", .str ""),
  ("gravatar_id", .str ""),
  ("url", .str ""),
  ("html_url", .str ""),
  ("followers_url", .str ""),
  ("following_url", .str ""),
  ("gists_url", .str ""),
  ("starred_url", .str ""),
  ("subscriptions_url", .str ""),
  ("organizations_url", .str ""),
  ("repos_url", .str ""),
  ("events_url", .str ""),
  ("received_events_url", .str ""),
  ("type", .str ""),
  ("site_admin", .bool false)]

/-- A minimal valid document for `struct Account` (every field with a
simple value of its declared type). -/
def sampleAccount : Json := .obj [
  ("login", .str ""),
  ("id", .num 0),
  ("node_id", .str ""),
  ("avatar_url", .str ""),
  ("gravatar_id", .str ""),
  ("url", .str ""),
  ("html_url", .str ""),
  ("followers_url", .str ""),
  ("following_url", .str ""),
  ("gists_url", .str ""),
  ("starred_url", .str ""),
  ("subscriptions_url", .str ""),
  ("organizations_url", .str ""),
  ("repos_url", .str ""),
  ("events_url", .str ""),
  ("received_events_url", .str ""),
  ("type", .str ""),
  ("site_admin", .bool false)]

/-- The value `sampleAccount` decodes to. -/
def sampleAccountVal : Val := .record [
  ("login", .str ""),
  ("id", .int 0),
  ("node_id", .str ""),
  ("avatar_url", .str ""),
  ("gravatar_id", .str ""),
  ("url", .str ""),
  ("html_url", .str ""),
  ("followers_url", .str ""),
  ("following_url", .str ""),
  ("gists_url", .str ""),
  ("starred_url", .str ""),
  ("subscriptions_url", .str ""),
  ("organizations_url", .str ""),
  ("repos_url", .str ""),
  ("events_url", .str ""),
  ("received_events_url", .str ""),
  ("type", .str ""),
  ("site_admin", .bool false)]

/-- A minimal valid document for `struct Permissions` (every field with a
simple value of its declared type). -/
def samplePermissions : Json := .obj [
  ("metadata", .str ""),
  ("contents", .str ""),
  ("issues", .str "")]

/-- The value `samplePermissions` decodes to. -/
def samplePermissionsVal : Val := .record [
  ("metadata", .str ""),
  ("contents", .str ""),
  ("issues", .str "")]

/-- A minimal valid document for `struct Installation` (every field with a
simple value of its declared type). -/
def sampleInstallation : Json := .obj [
  ("id", .num 0),
  ("account", sampleAccount),
  ("repository_selection", .str ""),
  ("access_tokens_url", .str ""),
  ("repositories_url", .str ""),
  ("html_url", .str ""),
  ("app_id", .num 0),
  ("target_id", .num 0),
  ("target_type", .str ""),
  ("permissions", samplePermissions),
  ("events", .arr []),
  ("created_at", .num 0),
  ("updated_at", .num 0),
  ("single_file_name", .str "")]

/-- The value `sampleInstallation` decodes to. -/
def sampleInstallationVal : Val := .record [
  ("id", .int 0),
  ("account", sampleAccountVal),
  ("repository_selection", .str ""),
  ("access_tokens_url", .str ""),
  ("repositories_url", .str ""),
  ("html_url", .str ""),
  ("app_id", .int 0),
  ("target_id", .int 0),
  ("target_type", .str ""),
  ("permissions", samplePermissionsVal),
  ("events", .list []),
  ("created_at", .int 0),
  ("updated_at", .int 0),
  ("single_file_name", .str "")]

/-- A minimal valid document for `struct User` (every field with a
simple value of its declared type). -/
def sampleUser : Json := .obj [
  ("login", .str ""),
  ("id", .num 0),
  ("node_id", .str ""),
  ("avatar_url", .str ""),
  ("gravatar_id", .str ""),
  ("url", .str ""),
  ("html_url", .str ""),
  ("followers_url", .str ""),
  ("following_url", .str ""),
  ("gists_url", .str ""),
  ("starred_url", .str ""),
  ("subscriptions_url", .str ""),
  ("organizations_url", .str ""),
  ("repos_url", .str ""),
  ("events_url", .str ""),
  ("received_events_url", .str ""),
  ("type", .str ""),
  ("site_admin", .bool false)]

/-- The value `sampleUser` decodes to. -/
def sampleUserVal : Val := .record [
  ("login", .str ""),
  ("id", .int 0),
  ("node_id", .str ""),
  ("avatar_url", .str ""),
  ("gravatar_id", .str ""),
  ("url", .str ""),
  ("html_url", .str ""),
  ("followers_url", .str ""),
  ("following_url", .str ""),
  ("gists_url", .str ""),
  ("starred_url", .str ""),
  ("subscriptions_url", .str ""),
  ("organizations_url", .str ""),
  ("repos_url", .str ""),
  ("events_url", .str ""),
  ("received_events_url", .str ""),
  ("type", .str ""),
  ("site_admin", .bool false)]

/-- A minimal valid document for `struct Comment` (every field with a
simple value of its declared type). -/
def sampleComment : Json := .obj [
  ("url", .str ""),
  ("html_url", .str ""),
  ("id", .num 0),
  ("node_id", .str ""),
  ("user", sampleUser),
  ("position", .null),
  ("line", .null),
  ("path", .null),
  ("commit_id", .str ""),
  ("created_at", .str ""),
  ("updated_at", .str ""),
  ("author_association", .str ""),
  ("body", .str "")]

/-- The value `sampleComment` decodes to. -/
def sampleCommentVal : Val := .record [
  ("url", .str ""),
  ("html_url", .str ""),
  ("id", .int 0),
  ("node_id", .str ""),
  ("user", sampleUserVal),
  ("position", .json .null),
  ("line", .json .null),
  ("path", .json .null),
  ("commit_id", .str ""),
  ("created_at", .str ""),
  ("updated_at", .str ""),
  ("author_association", .str ""),
  ("body", .str "")]

/-- A minimal valid document for `struct Issue` (every field with a
simple value of its declared type). -/
def sampleIssue : Json := .obj [
  ("url", .str ""),
  ("repository_url", .str ""),
  ("labels_url", .str ""),
  ("comments_url", .str ""),
  ("events_url", .str ""),
  ("html_url", .str ""),
  ("id", .num 0),
  ("node_id", .str ""),
  ("number", .num 0),
  ("title", .str ""),
  ("user", sampleUser),
  ("labels", .arr []),
  ("state", .str ""),
  ("locked", .bool false),
  ("assignee", .null),
  ("assignees", .arr []),
  ("milestone", .null),
  ("comments", .num 0),
  ("created_at", .str ""),
  ("updated_at", .str ""),
  ("closed_at", .null),
  ("author_association", .str ""),
  ("body", .str "")]

/-- The value `sampleIssue` decodes to. -/
def sampleIssueVal : Val := .record [
  ("url", .str ""),
  ("repository_url", .str ""),
  ("labels_url", .str ""),
  ("comments_url", .str ""),
  ("events_url", .str ""),
  ("html_url", .str ""),
  ("id", .int 0),
  ("node_id", .str ""),
  ("number", .int 0),
  ("title", .str ""),
  ("user", sampleUserVal),
  ("labels", .list []),
  ("state", .str ""),
  ("locked", .bool false),
  ("assignee", .json .null),
  ("assignees", .list []),
  ("milestone", .json .null),
  ("comments", .int 0),
  ("created_at", .str ""),
  ("updated_at", .str ""),
  ("closed_at", .json .null),
  ("author_association", .str ""),
  ("body", .str "")]

/-- A minimal valid document for `struct Creator` (every field with a
simple value of its declared type). -/
def sampleCreator : Json := .obj [
  ("login", .str ""),
  ("id", .num 0),
  ("node_id", .str ""),
  ("avatar_url", .str ""),
  ("gravatar_id", .str ""),
  ("url", .str ""),
  ("html_url", .str ""),
  ("followers_url", .str ""),
  ("following_url", .str ""),
  ("gists_url", .str ""),
  ("starred_url", .str ""),
  ("subscriptions_url", .str ""),
  ("organizations_url", .str ""),
  ("repos_url", .str ""),
  ("events_url", .str ""),
  ("received_events_url", .str ""),
  ("type", .str ""),
  ("site_admin", .bool false)]

/-- The value `sampleCreator` decodes to. -/
def sampleCreatorVal : Val := .record [
  ("login", .str ""),
  ("id", .int 0),
  ("node_id", .str ""),
  ("avatar_url", .str ""),
  ("gravatar_id", .str ""),
  ("url", .str ""),
  ("html_url", .str ""),
  ("followers_url", .str ""),
  ("following_url", .str ""),
  ("gists_url", .str ""),
  ("starred_url", .str ""),
  ("subscriptions_url", .str ""),
  ("organizations_url", .str ""),
  ("repos_url", .str ""),
  ("events_url", .str ""),
  ("received_events_url", .str ""),
  ("type", .str ""),
  ("site_admin", .bool false)]

/-- A minimal valid document for `struct Milestone` (every field with a
simple value of its declared type). -/
def sampleMilestone : Json := .obj [
  ("url", .str ""),
  ("html_url", .str ""),
  ("labels_url", .str ""),
  ("id", .num 0),
  ("node_id", .str ""),
  ("number", .num 0),
  ("title", .str ""),
  ("description", .str ""),
  ("creator", sampleCreator),
  ("open_issues", .num 0),
  ("closed_issues", .num 0),
  ("state", .str ""),
  ("created_at", .str ""),
  ("updated_at", .str ""),
  ("due_on", .str ""),
  ("closed_at", .null)]

/-- The value `sampleMilestone` decodes to. -/
def sampleMilestoneVal : Val := .record [
  ("url", .str ""),
  ("html_url", .str ""),
  ("labels_url", .str ""),
  ("id", .int 0),
  ("node_id", .str ""),
  ("number", .int 0),
  ("title", .str ""),
  ("description", .str ""),
  ("creator", sampleCreatorVal),
  ("open_issues", .int 0),
  ("closed_issues", .int 0),
  ("state", .str ""),
  ("created_at", .str ""),
  ("updated_at", .str ""),
  ("due_on", .str ""),
  ("closed_at", .json .null)]

/-- A minimal valid document for `struct Pusher` (every field with a
simple value of its declared type). -/
def samplePusher : Json := .obj [
  ("login", .str ""),
  ("id", .num 0),
  ("node_id", .str ""),
  ("avatar_url", .str ""),
  ("gravatar_id", .str ""),
  ("url", .str ""),
  ("html_url", .str ""),
  ("followers_url", .str ""),
  ("following_url", .str ""),
  ("gists_url", .str ""),
  ("starred_url", .str ""),
  ("subscriptions_url", .str ""),
  ("organizations_url", .str ""),
  ("repos_url", .str ""),
  ("events_url", .str ""),
  ("received_events_url", .str ""),
  ("type", .str ""),
  ("site_admin", .bool false)]

/-- The value `samplePusher` decodes to. -/
def samplePusherVal : Val := .record [
  ("login", .str ""),
  ("id", .int 0),
  ("node_id", .str ""),
  ("avatar_url", .str ""),
  ("gravatar_id", .str ""),
  ("url", .str ""),
  ("html_url", .str ""),
  ("followers_url", .str ""),
  ("following_url", .str ""),
  ("gists_url", .str ""),
  ("starred_url", .str ""),
  ("subscriptions_url", .str ""),
  ("organizations_url", .str ""),
  ("repos_url", .str ""),
  ("events_url", .str ""),
  ("received_events_url", .str ""),
  ("type", .str ""),
  ("site_admin", .bool false)]

/-- A minimal valid `CheckRunEvent` payload: its top-level keys are exactly
the declared fields of the `CheckRunEvent` variant. -/
def checkRunPayload : Json := .obj [
  ("action", .str "created"),
  ("check_run", sampleCheckRun),
  ("repository", sampleRepository),
  ("organization", sampleOrganization),
  ("sender", sampleSender),
  ("installation", sampleInstallation)]

/-- The value `checkRunPayload` decodes to under the `CheckRunEvent` shape. -/
def checkRunPayloadVal : Val := .record [
  ("action", .action "created"),
  ("check_run", sampleCheckRunVal),
  ("repository", sampleRepositoryVal),
  ("organization", sampleOrganizationVal),
  ("sender", sampleSenderVal),
  ("installation", sampleInstallationVal)]

/-- A valid `PushEvent` payload with one additional undeclared entry
`"action": "started"`, making it also a valid `WatchEvent` payload
(both shapes ignore the keys they do not declare). -/
def pushAmbiguousPayload : Json := .obj [
  ("ref", .str ""),
  ("head", .null),
  ("before", .str ""),
  ("after", .str ""),
  ("size", .num 0),
  ("created", .bool false),
  ("deleted", .bool false),
  ("forced", .bool false),
  ("base_ref", .null),
  ("compare", .str ""),
  ("commits", .arr []),
  ("head_commit", .null),
  ("repository", sampleRepository),
  ("pusher", samplePusher),
  ("sender", sampleSender),
  ("action", .str "started")]

/-- The value `pushAmbiguousPayload` decodes to under the `PushEvent` shape. -/
def pushAmbiguousPayloadVal : Val := .record [
  ("ref", .str ""),
  ("head", .opt none),
  ("before", .str ""),
  ("after", .str ""),
  ("size", .int 0),
  ("created", .bool false),
  ("deleted", .bool false),
  ("forced", .bool false),
  ("base_ref", .json .null),
  ("compare", .str ""),
  ("commits", .list []),
  ("head_commit", .json .null),
  ("repository", sampleRepositoryVal),
  ("pusher", samplePusherVal),
  ("sender", sampleSenderVal)]

/-- The value `pushAmbiguousPayload` decodes to under the `WatchEvent` shape. -/
def watchOfPushVal : Val := .record [
  ("action", .str "started"),
  ("repository", sampleRepositoryVal),
  ("sender", sampleSenderVal)]


/-- A valid `CreateEvent` payload, parameterized by the JSON value of its
opaque `description` field (all other entries fixed). -/
def createPayload (description : Json) : Json := .obj [
  ("ref", .str "master"),
  ("ref_type", .str "branch"),
  ("master_branch", .str "master"),
  ("description", description),
  ("pusher_type", .str "user"),
  ("repository", sampleRepository),
  ("sender", sampleSender)]

/-- The value `createPayload description` decodes to: identical for every
`description`, except that the opaque field captures `description` itself. -/
def createPayloadVal (description : Json) : Val := .record [
  ("ref", .str "master"),
  ("ref_type", .str "branch"),
  ("master_branch", .str "master"),
  ("description", .json description),
  ("pusher_type", .str "user"),
  ("repository", sampleRepositoryVal),
  ("sender", sampleSenderVal)]

/-- A `CreateEvent` payload whose top-level `ref` entry is JSON `null`. -/
def createPayloadNullRef : Json := .obj [
  ("ref", .null),
  ("ref_type", .str "repository"),
  ("master_branch", .str "master"),
  ("description", .null),
  ("pusher_type", .str "user"),
  ("repository", sampleRepository),
  ("sender", sampleSender)]

/-- A valid `MilestoneEvent` payload, parameterized by its `action` string;
the optional `changes` field is omitted. -/
def milestonePayload (action : String) : Json := .obj [
  ("action", .str action),
  ("milestone", sampleMilestone),
  ("repository", sampleRepository),
  ("sender", sampleSender)]

/-- The value `milestonePayload action` decodes to: the action string is
captured verbatim, the omitted `Option` field `changes` becomes `None`. -/
def milestonePayloadVal (action : String) : Val := .record [
  ("action", .str action),
  ("milestone", sampleMilestoneVal),
  ("changes", .opt none),
  ("repository", sampleRepositoryVal),
  ("sender", sampleSenderVal)]

/-- A valid `DeleteEvent` payload. -/
def deletePayload : Json := .obj [
  ("ref", .str "feature"),
  ("ref_type", .str "branch"),
  ("pusher_type", .str "user")]

/-- The value `deletePayload` decodes to. -/
def deletePayloadVal : Val := .record [
  ("ref", .str "feature"),
  ("ref_type", .str "branch"),
  ("pusher_type", .str "user")]

/-- A valid `IssueCommentEvent` payload that omits the optional `changes`
field. -/
def issueCommentPayload : Json := .obj [
  ("action", .str "created"),
  ("issue", sampleIssue),
  ("comment", sampleComment),
  ("repository", sampleRepository),
  ("sender", sampleSender)]

/-- The value `issueCommentPayload` decodes to: the omitted `Option` field
`changes` becomes `None`. -/
def issueCommentPayloadVal : Val := .record [
  ("action", .action "created"),
  ("changes", .opt none),
  ("issue", sampleIssueVal),
  ("comment", sampleCommentVal),
  ("repository", sampleRepositoryVal),
  ("sender", sampleSenderVal)]

theorem lookupKey_append {A : Type} (l1 l2 : List (String × A)) (k : String) :
    lookupKey (l1 ++ l2) k =
      match lookupKey l1 k with
      | some a => some a
      | none => lookupKey l2 k := by
  induction l1 with
  | nil => simp [lookupKey]
  | cons p rest ih =>
    obtain ⟨n, a⟩ := p
    by_cases h : k = n <;> simp [lookupKey, h, ih]

theorem lookupKey_mem {A : Type} {l : List (String × A)} {k : String} {a : A}
    (h : lookupKey l k = some a) : (k, a) ∈ l := by
  induction l with
  | nil => simp [lookupKey] at h
  | cons p rest ih =>
    obtain ⟨n, b⟩ := p
    by_cases hk : k = n
    · subst hk
      simp [lookupKey] at h
      subst h
      exact List.mem_cons_self _ _
    · simp [lookupKey, hk] at h
      exact List.mem_cons_of_mem _ (ih h)

theorem lookupKey_eq_none {A : Type} {l : List (String × A)} {k : String}
    (h : k ∉ l.map Prod.fst) : lookupKey l k = none := by
  induction l with
  | nil => simp [lookupKey]
  | cons p rest ih =>
    obtain ⟨n, a⟩ := p
    simp only [List.map_cons, List.mem_cons, not_or] at h
    simp [lookupKey, h.1, ih h.2]

theorem containsStr_eq_false_iff (l : List String) (x : String) :
    containsStr l x = false ↔ x ∉ l := by
  induction l with
  | nil => simp [containsStr]
  | cons y ys ih => by_cases h : x = y <;> simp [containsStr, h, ih]

theorem distinctB_iff_nodup (l : List String) : distinctB l = true ↔ l.Nodup := by
  induction l with
  | nil => simp [distinctB]
  | cons x xs ih =>
    simp only [distinctB, Bool.and_eq_true, Bool.not_eq_true', containsStr_eq_false_iff,
      List.nodup_cons, ih]

theorem decoders_lookup : ∀ (fs : Fields) (k : String),
    lookupKey (Fields.decoders fs) k =
      (Fields.lookupTy fs k).map fun t => (Ty.decode t, missingDefault t)
  | .nil, _ => rfl
  | .cons n t rest, k => by
    by_cases h : k = n <;>
      simp [Fields.decoders, Fields.lookupTy, lookupKey, h, decoders_lookup rest k]

theorem runEntries_skip (table : List TableEntry) (k : String) (j : Json)
    (hk : lookupKey table k = none) :
    ∀ (l1 l2 : List (String × Json)) (acc : List (String × Val)),
      runEntries table (l1 ++ (k, j) :: l2) acc = runEntries table (l1 ++ l2) acc
  | [], l2, acc => by simp [runEntries, hk]
  | (k', j') :: l1', l2, acc => by
    simp only [List.cons_append, runEntries]
    cases hlk : lookupKey table k' with
    | none => exact runEntries_skip table k j hk l1' l2 acc
    | some dm =>
      obtain ⟨d, m⟩ := dm
      cases hdup : (lookupKey acc k').isSome with
      | true => simp
      | false =>
        simp only [Bool.false_eq_true, if_false]
        cases hd : d j' with
        | error e => rfl
        | ok v => exact runEntries_skip table k j hk l1' l2 (acc ++ [(k', v)])

theorem decode_record_skip_unknown (nm : String) (fs : Fields) (k : String) (j : Json)
    (hk : Fields.lookupTy fs k = none) (l1 l2 : List (String × Json)) :
    Ty.decode (.record nm fs) (.obj (l1 ++ (k, j) :: l2)) =
      Ty.decode (.record nm fs) (.obj (l1 ++ l2)) := by
  have h2 : lookupKey (Fields.decoders fs) k = none := by
    rw [decoders_lookup, hk]
    rfl
  have hr : ∀ e, Ty.decode (.record nm fs) (.obj e) = runRecord (Fields.decoders fs) e :=
    fun _ => rfl
  rw [hr, hr, runRecord, runRecord, runEntries_skip _ k j h2]

/-- The round-trip property of a declared type: every successfully decoded
value re-decodes from its own serialization to itself; moreover a value's
serialization can only be `null` when the document it was decoded from was
itself `null`. -/
def RTProp (t : Ty) : Prop :=
  Ty.wfB t = true → ∀ j v, Ty.decode t j = .ok v →
    Ty.decode t (Val.encode v) = .ok v ∧ (Val.encode v = .null → j = .null)

theorem rt_string : RTProp .string := by
  intro _ j v h
  cases j <;> simp [Ty.decode] at h
  subst h
  exact ⟨rfl, by simp [Val.encode]⟩

theorem rt_i64 : RTProp .i64 := by
  intro _ j v h
  cases j <;> simp [Ty.decode] at h
  subst h
  exact ⟨rfl, by simp [Val.encode]⟩

theorem rt_isize : RTProp .isize := by
  intro _ j v h
  cases j <;> simp [Ty.decode] at h
  subst h
  exact ⟨rfl, by simp [Val.encode]⟩

theorem rt_boolean : RTProp .boolean := by
  intro _ j v h
  cases j <;> simp [Ty.decode] at h
  subst h
  exact ⟨rfl, by simp [Val.encode]⟩

theorem rt_value : RTProp .value := by
  intro _ j v h
  simp [Ty.decode] at h
  subst h
  refine ⟨?_, ?_⟩ <;> simp [Ty.decode, Val.encode]

theorem rt_action (values : List String) : RTProp (.action values) := by
  intro _ j v h
  cases j with
  | str s =>
    simp only [Ty.decode] at h
    cases hc : values.contains s with
    | false => rw [hc] at h; exact absurd h (by simp)
    | true =>
      rw [hc] at h
      simp at h
      subst h
      refine ⟨?_, by simp [Val.encode]⟩
      have hmem : s ∈ values := by simpa using hc
      simp [Val.encode, Ty.decode, hc, hmem]
  | null => exact absurd h (by simp [Ty.decode])
  | bool b => exact absurd h (by simp [Ty.decode])
  | num n => exact absurd h (by simp [Ty.decode])
  | arr es => exact absurd h (by simp [Ty.decode])
  | obj es => exact absurd h (by simp [Ty.decode])

/-- Deserializing `Option<T>` from a non-null document deserializes `T`. -/
theorem decode_option_not_null (t : Ty) (j : Json) (hj : j ≠ .null) :
    Ty.decode (.option t) j =
      match Ty.decode t j with
      | .error e => .error e
      | .ok w => .ok (.opt (some w)) := by
  cases j <;> first | exact absurd rfl hj | rfl

theorem rt_option (t : Ty) (IH : RTProp t) : RTProp (.option t) := by
  intro hw j v h
  have hwt : Ty.wfB t = true := by simpa [Ty.wfB] using hw
  by_cases hj : j = .null
  · subst hj
    simp [Ty.decode] at h
    subst h
    exact ⟨rfl, fun _ => rfl⟩
  · rw [decode_option_not_null t j hj] at h
    cases hd : Ty.decode t j with
    | error e => rw [hd] at h; exact absurd h (by simp)
    | ok w =>
      rw [hd] at h
      simp at h
      subst h
      obtain ⟨h1, h2⟩ := IH hwt j w hd
      have he : Val.encode (.opt (some w)) = Val.encode w := by simp [Val.encode]
      have hnn : Val.encode w ≠ .null := fun hn => hj (h2 hn)
      refine ⟨?_, fun hn => absurd (he ▸ hn) hnn⟩
      rw [he, decode_option_not_null t _ hnn, h1]

/-- Re-decoding the serialization of a successfully decoded `Vec` recovers
the same elements. -/
theorem rt_elems (t : Ty)
    (IH : ∀ j v, Ty.decode t j = .ok v → Ty.decode t (Val.encode v) = .ok v) :
    ∀ (js : List Json) (vs : List Val), decodeElems (Ty.decode t) js = .ok vs →
      decodeElems (Ty.decode t) (Val.encodeList vs) = .ok vs
  | [], vs, h => by
    simp [decodeElems] at h
    subst h
    simp [Val.encodeList, decodeElems]
  | j :: rest, vs, h => by
    simp only [decodeElems] at h
    cases hd : Ty.decode t j with
    | error e => rw [hd] at h; exact absurd h (by simp)
    | ok v =>
      rw [hd] at h
      cases hrest : decodeElems (Ty.decode t) rest with
      | error e => rw [hrest] at h; exact absurd h (by simp)
      | ok ws =>
        rw [hrest] at h
        simp at h
        subst h
        simp only [Val.encodeList, decodeElems, IH j v hd, rt_elems t IH rest ws hrest]

theorem rt_vec (t : Ty) (IH : RTProp t) : RTProp (.vec t) := by
  intro hw j v h
  have hwt : Ty.wfB t = true := by simpa [Ty.wfB] using hw
  cases j <;> simp only [Ty.decode] at h <;> try exact absurd h (by simp)
  rename_i elems
  cases he : decodeElems (Ty.decode t) elems with
  | error e => rw [he] at h; exact absurd h (by simp)
  | ok vs =>
    rw [he] at h
    simp at h
    subst h
    have hel := rt_elems t (fun j' v' hd => (IH hwt j' v' hd).1) elems vs he
    refine ⟨?_, by simp [Val.encode]⟩
    simp only [Val.encode, Ty.decode, hel]

theorem decoders_names : ∀ fs : Fields,
    (Fields.decoders fs).map Prod.fst = Fields.names fs
  | .nil => rfl
  | .cons n t rest => by
    simp [Fields.decoders, Fields.names, decoders_names rest]

theorem fieldsWf_mem : ∀ fs : Fields, Fields.wfB fs = true →
    ∀ p, p ∈ Fields.toList fs → Ty.wfB p.2 = true
  | .nil, _, p, hp => by simp [Fields.toList] at hp
  | .cons n t rest, hw, p, hp => by
    simp only [Fields.wfB, Bool.and_eq_true] at hw
    rcases List.mem_cons.mp (by simpa [Fields.toList] using hp) with h1 | h2
    · subst h1; exact hw.1
    · exact fieldsWf_mem rest hw.2 p h2

theorem lookupTy_mem : ∀ (fs : Fields) (k : String) (t : Ty),
    Fields.lookupTy fs k = some t → (k, t) ∈ Fields.toList fs
  | .nil, k, t, h => by simp [Fields.lookupTy] at h
  | .cons n t' rest, k, t, h => by
    by_cases hk : k = n
    · subst hk
      simp [Fields.lookupTy] at h
      subst h
      simp [Fields.toList]
    · simp only [Fields.lookupTy, hk, if_false] at h
      simp only [Fields.toList, List.mem_cons]
      exact .inr (lookupTy_mem rest k t h)

theorem missingDefault_some (t : Ty) (v : Val) (h : missingDefault t = some v) :
    (∃ u, t = .option u) ∧ v = .opt none := by
  cases t <;> simp [missingDefault] at h
  case option u => exact ⟨⟨u, rfl⟩, h.symm⟩

theorem runEntries_origin (table : List TableEntry) :
    ∀ (kvs : List (String × Json)) (acc out : List (String × Val)),
      runEntries table kvs acc = .ok out → ∀ p, p ∈ out →
        p ∈ acc ∨ ∃ j d m, lookupKey table p.1 = some (d, m) ∧ d j = .ok p.2
  | [], acc, out, h, p, hp => by
    simp [runEntries] at h
    subst h
    exact .inl hp
  | (k, j) :: rest, acc, out, h, p, hp => by
    simp only [runEntries] at h
    cases hlk : lookupKey table k with
    | none =>
      rw [hlk] at h
      exact runEntries_origin table rest acc out h p hp
    | some dm =>
      obtain ⟨d, m⟩ := dm
      rw [hlk] at h
      cases hdup : (lookupKey acc k).isSome with
      | true => rw [hdup] at h; exact absurd h (by simp)
      | false =>
        rw [hdup] at h
        simp only [Bool.false_eq_true, if_false] at h
        cases hd : d j with
        | error e => rw [hd] at h; exact absurd h (by simp)
        | ok v =>
          rw [hd] at h
          rcases runEntries_origin table rest (acc ++ [(k, v)]) out h p hp with hin | hex
          · rcases List.mem_append.mp hin with h1 | h2
            · exact .inl h1
            · simp at h2
              subst h2
              exact .inr ⟨j, d, m, hlk, hd⟩
          · exact .inr hex

theorem finish_origin : ∀ (tb : List TableEntry) (acc out : List (String × Val)),
    (tb.map Prod.fst).Nodup → finishFields tb acc = .ok out →
      out.map Prod.fst = tb.map Prod.fst ∧
        ∀ p, p ∈ out → lookupKey acc p.1 = some p.2 ∨
          ∃ d, lookupKey tb p.1 = some (d, some p.2)
  | [], acc, out, _, h => by
    simp [finishFields] at h
    subst h
    simp
  | (n, d, m) :: tb', acc, out, hnd, h => by
    simp only [List.map_cons, List.nodup_cons] at hnd
    obtain ⟨hn, hnd'⟩ := hnd
    simp only [finishFields] at h
    have main : ∀ (v : Val) (tl : List (String × Val)),
        finishFields tb' acc = .ok tl → out = (n, v) :: tl →
        (lookupKey acc n = some v ∨ m = some v) →
        out.map Prod.fst = ((n, d, m) :: tb').map Prod.fst ∧
          ∀ p, p ∈ out → lookupKey acc p.1 = some p.2 ∨
            ∃ d', lookupKey ((n, d, m) :: tb') p.1 = some (d', some p.2) := by
      intro v tl htl hout hv
      obtain ⟨ihmap, ihmem⟩ := finish_origin tb' acc tl hnd' htl
      subst hout
      constructor
      · simp [ihmap]
      · intro p hp
        rcases List.mem_cons.mp hp with h1 | h2
        · subst h1
          rcases hv with hv | hv
          · exact .inl hv
          · exact .inr ⟨d, by simp [lookupKey, hv]⟩
        · rcases ihmem p h2 with hL | ⟨d', hR⟩
          · exact .inl hL
          · refine .inr ⟨d', ?_⟩
            have hne : p.1 ≠ n := by
              intro hEq
              apply hn
              rw [← ihmap, ← hEq]
              exact List.mem_map_of_mem Prod.fst h2
            simp [lookupKey, hne, hR]
    cases hla : lookupKey acc n with
    | some v =>
      rw [hla] at h
      cases htl : finishFields tb' acc with
      | error e => rw [htl] at h; exact absurd h (by simp)
      | ok tl =>
        rw [htl] at h
        simp at h
        exact main v tl htl h.symm (.inl hla)
    | none =>
      rw [hla] at h
      cases m with
      | none => exact absurd h (by simp)
      | some v =>
        cases htl : finishFields tb' acc with
        | error e => rw [htl] at h; exact absurd h (by simp)
        | ok tl =>
          rw [htl] at h
          simp at h
          exact main v tl htl h.symm (.inr rfl)

theorem rerun_entries (table : List TableEntry) :
    ∀ (fv acc : List (String × Val)),
      (fv.map Prod.fst).Nodup →
      (∀ p, p ∈ fv →
        ∃ d m, lookupKey table p.1 = some (d, m) ∧ d (Val.encode p.2) = .ok p.2) →
      (∀ n, (lookupKey acc n).isSome → n ∉ fv.map Prod.fst) →
      runEntries table (Val.encodeFields fv) acc = .ok (acc ++ fv)
  | [], acc, _, _, _ => by simp [Val.encodeFields, runEntries]
  | (n, v) :: fv', acc, hnd, hfv, hacc => by
    obtain ⟨d, m, hlk, hd⟩ := hfv (n, v) (List.mem_cons_self _ _)
    simp only [List.map_cons, List.nodup_cons] at hnd
    obtain ⟨hn, hnd'⟩ := hnd
    have hdup : (lookupKey acc n).isSome = false := by
      cases hs : (lookupKey acc n).isSome with
      | false => rfl
      | true => exact absurd (hacc n hs) (by simp)
    simp only [Val.encodeFields, runEntries, hlk, hdup, Bool.false_eq_true, if_false, hd]
    have hacc' : ∀ k, (lookupKey (acc ++ [(n, v)]) k).isSome → k ∉ fv'.map Prod.fst := by
      intro k hk
      rw [lookupKey_append] at hk
      cases hka : lookupKey acc k with
      | some w =>
        have := hacc k (by simp [hka])
        simp only [List.map_cons, List.mem_cons, not_or] at this
        exact this.2
      | none =>
        rw [hka] at hk
        simp only [lookupKey] at hk
        by_cases hkn : k = n
        · subst hkn; exact hn
        · simp [hkn] at hk
    have ih := rerun_entries table fv' (acc ++ [(n, v)]) hnd'
      (fun p hp => hfv p (List.mem_cons_of_mem _ hp)) hacc'
    rw [ih]
    simp

theorem refinish : ∀ (tb : List TableEntry) (fv junk : List (String × Val)),
    tb.map Prod.fst = fv.map Prod.fst →
    (tb.map Prod.fst).Nodup →
    (∀ n, n ∈ tb.map Prod.fst → lookupKey junk n = none) →
    finishFields tb (junk ++ fv) = .ok fv
  | [], fv, junk, hmap, _, _ => by
    have : fv = [] := by
      cases fv with
      | nil => rfl
      | cons p fv' => simp at hmap
    subst this
    simp [finishFields]
  | (n, d, m) :: tb', fv, junk, hmap, hnd, hjunk => by
    cases fv with
    | nil => simp at hmap
    | cons p fv' =>
      obtain ⟨n', v⟩ := p
      simp only [List.map_cons, List.cons.injEq] at hmap
      obtain ⟨hn, hrest⟩ := hmap
      subst hn
      simp only [List.map_cons, List.nodup_cons] at hnd
      obtain ⟨hnn, hnd'⟩ := hnd
      have hjl : lookupKey (junk ++ (n, v) :: fv') n = some v := by
        rw [lookupKey_append, hjunk n (by simp)]
        simp [lookupKey]
      simp only [finishFields, hjl]
      have hjunk' : ∀ k, k ∈ tb'.map Prod.fst → lookupKey (junk ++ [(n, v)]) k = none := by
        intro k hk
        have hkn : k ≠ n := fun hEq => hnn (hEq ▸ hk)
        rw [lookupKey_append, hjunk k (by simp [hk])]
        simp [lookupKey, hkn]
      have ih := refinish tb' fv' (junk ++ [(n, v)]) hrest hnd' hjunk'
      rw [List.append_assoc] at ih
      simp only [List.singleton_append] at ih
      rw [ih]

theorem rt_record (nm : String) (fs : Fields)
    (IH : ∀ p, p ∈ Fields.toList fs → RTProp p.2) : RTProp (.record nm fs) := by
  intro hw j v h
  have hr : ∀ e, Ty.decode (.record nm fs) (.obj e) = runRecord (Fields.decoders fs) e :=
    fun _ => rfl
  simp only [Ty.wfB, Bool.and_eq_true] at hw
  obtain ⟨hdist, hfwf⟩ := hw
  have hnodup : (Fields.names fs).Nodup := (distinctB_iff_nodup _).mp hdist
  have htbn : (Fields.decoders fs).map Prod.fst = Fields.names fs := decoders_names fs
  cases j with
  | obj entries =>
    rw [hr] at h
    simp only [runRecord] at h
    cases hrun : runEntries (Fields.decoders fs) entries [] with
    | error e => rw [hrun] at h; exact absurd h (by simp)
    | ok acc =>
      simp only [hrun] at h
      cases hfin : finishFields (Fields.decoders fs) acc with
      | error e => simp [hfin] at h
      | ok fvals =>
        simp only [hfin] at h
        simp at h
        subst h
        obtain ⟨hfnames, hfmem⟩ :=
          finish_origin (Fields.decoders fs) acc fvals (htbn ▸ hnodup) hfin
        have hfnd : (fvals.map Prod.fst).Nodup := by
          rw [hfnames, htbn]; exact hnodup
        have hfv : ∀ p, p ∈ fvals →
            ∃ d m, lookupKey (Fields.decoders fs) p.1 = some (d, m) ∧
              d (Val.encode p.2) = .ok p.2 := by
          intro p hp
          rcases hfmem p hp with hL | ⟨d, hR⟩
          · have hmem := lookupKey_mem hL
            rcases runEntries_origin (Fields.decoders fs) entries [] acc hrun p hmem with
              hnil | ⟨j', d, m, hlk, hdj⟩
            · simp at hnil
            · obtain ⟨t', hty, hdm⟩ : ∃ t', Fields.lookupTy fs p.1 = some t' ∧
                  (d, m) = (Ty.decode t', missingDefault t') := by
                rw [decoders_lookup] at hlk
                cases hty : Fields.lookupTy fs p.1 with
                | none => rw [hty] at hlk; simp at hlk
                | some t' =>
                  rw [hty] at hlk
                  simp at hlk
                  exact ⟨t', rfl, by simp [hlk]⟩
              have hd : d = Ty.decode t' := congrArg Prod.fst hdm
              have hm : m = missingDefault t' := congrArg Prod.snd hdm
              subst hd
              have hwt' : Ty.wfB t' = true :=
                fieldsWf_mem fs hfwf (p.1, t') (lookupTy_mem fs p.1 t' hty)
              have := (IH (p.1, t') (lookupTy_mem fs p.1 t' hty) hwt' j' p.2 hdj).1
              exact ⟨Ty.decode t', m, by rw [decoders_lookup, hty, hm]; rfl, this⟩
          · rw [decoders_lookup] at hR
            cases hty : Fields.lookupTy fs p.1 with
            | none => rw [hty] at hR; simp at hR
            | some t' =>
              rw [hty] at hR
              simp at hR
              obtain ⟨hd, hm⟩ := hR
              obtain ⟨⟨u, hu⟩, hv⟩ := missingDefault_some t' p.2 hm
              subst hu
              refine ⟨Ty.decode (.option u), missingDefault (.option u),
                by rw [decoders_lookup, hty]; rfl, ?_⟩
              rw [hv]
              have : Val.encode (.opt none) = .null := by simp [Val.encode]
              rw [this]
              rfl
        constructor
        · have henc : Val.encode (.record fvals) = .obj (Val.encodeFields fvals) := by
            simp [Val.encode]
          rw [henc, hr]
          simp only [runRecord]
          have hacc0 : ∀ n, (lookupKey ([] : List (String × Val)) n).isSome →
              n ∉ fvals.map Prod.fst := by
            intro n hsome
            simp [lookupKey] at hsome
          rw [rerun_entries (Fields.decoders fs) fvals [] hfnd hfv hacc0]
          simp only [List.nil_append]
          have hfin2 : finishFields (Fields.decoders fs) fvals = .ok fvals := by
            have := refinish (Fields.decoders fs) fvals []
              (by rw [hfnames]) (htbn ▸ hnodup) (by intro n _; rfl)
            simpa using this
          rw [hfin2]
        · intro habs
          have : Val.encode (.record fvals) = .obj (Val.encodeFields fvals) := by
            simp [Val.encode]
          rw [this] at habs
          exact absurd habs (by simp)
  | null => exact absurd h (by rw [show Ty.decode (.record nm fs) .null =
      .error (.invalidType "struct" "null") from rfl]; simp)
  | bool b => exact absurd h (by rw [show Ty.decode (.record nm fs) (.bool b) =
      .error (.invalidType "struct" "boolean") from rfl]; simp)
  | num n' => exact absurd h (by rw [show Ty.decode (.record nm fs) (.num n') =
      .error (.invalidType "struct" "integer") from rfl]; simp)
  | str s => exact absurd h (by rw [show Ty.decode (.record nm fs) (.str s) =
      .error (.invalidType "struct" "string") from rfl]; simp)
  | arr es => exact absurd h (by rw [show Ty.decode (.record nm fs) (.arr es) =
      .error (.invalidType "struct" "sequence") from rfl]; simp)

mutual
/-- Every declared type has the round-trip property. -/
theorem rtTy : ∀ t : Ty, RTProp t
  | .string => rt_string
  | .i64 => rt_i64
  | .isize => rt_isize
  | .boolean => rt_boolean
  | .value => rt_value
  | .option t => rt_option t (rtTy t)
  | .vec t => rt_vec t (rtTy t)
  | .action values => rt_action values
  | .record nm fs => rt_record nm fs (rtFields fs)

/-- Every field type of a field list has the round-trip property. -/
theorem rtFields : ∀ fs : Fields, ∀ p, p ∈ Fields.toList fs → RTProp p.2
  | .nil => by
    intro p hp
    simp [Fields.toList] at hp
  | .cons n t rest => by
    intro p hp
    rcases List.mem_cons.mp (by simpa [Fields.toList] using hp) with h1 | h2
    · subst h1
      exact rtTy t
    · exact rtFields rest p h2
end

/-- Checked by evaluation: every variant payload shape is well-formed. -/
theorem eventVariantsWf_true : eventVariantsWf = true := rfl

theorem lookupVariant_wf (k : String) (t : Ty)
    (h : lookupKey eventVariants k = some t) : Ty.wfB t = true := by
  have hmem := lookupKey_mem h
  have hwf := eventVariantsWf_true
  simp only [eventVariantsWf, List.all_eq_true] at hwf
  exact hwf (k, t) hmem

/-- Round trip at the `Event` level: re-encoding any successfully decoded
event and decoding again yields the same tagged value. -/
theorem decodeEvent_roundtrip (j : Json) (tag : String) (v : Val)
    (h : decodeEvent j = .ok (tag, v)) :
    decodeEvent (encodeEvent tag v) = .ok (tag, v) := by
  cases j with
  | obj entries =>
    cases entries with
    | nil => simp [decodeEvent] at h
    | cons p rest =>
      obtain ⟨k, payload⟩ := p
      simp only [decodeEvent] at h
      cases hlk : lookupKey eventVariants k with
      | none => simp [hlk] at h
      | some t =>
        simp only [hlk] at h
        cases hd : Ty.decode t payload with
        | error e => simp [hd] at h
        | ok w =>
          simp only [hd] at h
          cases rest with
          | cons q rest' => simp at h
          | nil =>
            simp at h
            obtain ⟨hk, hw⟩ := h
            subst hk
            subst hw
            have hwt : Ty.wfB t = true := lookupVariant_wf _ t hlk
            have hrt := (rtTy t hwt payload w hd).1
            simp only [encodeEvent, decodeEvent, hlk, hrt]
  | null => simp [decodeEvent] at h
  | bool b => simp [decodeEvent] at h
  | num n => simp [decodeEvent] at h
  | arr es => simp [decodeEvent] at h
  | str s =>
    simp only [decodeEvent] at h
    cases hlk : lookupKey eventVariants s with
    | none => simp [hlk] at h
    | some t => simp [hlk] at h

/-- A minimal valid document for `struct Team`. -/
def sampleTeam : Json := .obj [
  ("name", .str ""),
  ("id", .num 0),
  ("node_id", .str ""),
  ("slug", .str ""),
  ("description", .str ""),
  ("privacy", .str ""),
  ("url", .str ""),
  ("members_url", .str ""),
  ("repositories_url", .str ""),
  ("permission", .str "")]

/-- A minimal valid document for `struct Label`. -/
def sampleLabel : Json := .obj [
  ("id", .num 0),
  ("node_id", .str ""),
  ("url", .str ""),
  ("name", .str ""),
  ("color", .str ""),
  ("default", .bool false)]

/-- A minimal valid document for `struct Membership`. -/
def sampleMembership : Json := .obj [
  ("url", .str ""),
  ("state", .str ""),
  ("role", .str ""),
  ("organization_url", .str ""),
  ("user", sampleUser)]

/-- A minimal valid document for `struct ProjectCard`. -/
def sampleProjectCard : Json := .obj [
  ("url", .str ""),
  ("project_url", .str ""),
  ("column_url", .str ""),
  ("column_id", .num 0),
  ("id", .num 0),
  ("node_id", .str ""),
  ("note", .str ""),
  ("creator", sampleCreator),
  ("created_at", .str ""),
  ("updated_at", .str "")]

/-- `checkRunPayload` with its `check_run` entry deleted; every remaining
entry is valid. -/
def checkRunPayloadMissing : Json := .obj [
  ("action", .str "created"),
  ("repository", sampleRepository),
  ("organization", sampleOrganization),
  ("sender", sampleSender),
  ("installation", sampleInstallation)]

/-- A valid `WatchEvent` payload, parameterized by its `action` string. -/
def watchPayload (action : String) : Json := .obj [
  ("action", .str action),
  ("repository", sampleRepository),
  ("sender", sampleSender)]

/-- The value `watchPayload action` decodes to. -/
def watchPayloadVal (action : String) : Val := .record [
  ("action", .str action),
  ("repository", sampleRepositoryVal),
  ("sender", sampleSenderVal)]

/-- `render` then `parse` is the identity on `actions::Check`. -/
theorem Check_parse_render (c : actions.Check) :
    actions.Check.parse (actions.Check.render c) = .ok c := by
  cases c <;> rfl

/-- `parse` then `render` returns the original wire string for `actions::Check`. -/
theorem Check_render_parse (s : String) (c : actions.Check)
    (h : actions.Check.parse s = .ok c) : actions.Check.render c = s := by
  simp only [actions.Check.parse] at h
  split_ifs at h with h1 h2 h3 h4 <;>
    first
    | (injection h with hc; subst hc; simp_all [actions.Check.render])
    | injection h

/-- `render` then `parse` is the identity on `actions::Created`. -/
theorem Created_parse_render (c : actions.Created) :
    actions.Created.parse (actions.Created.render c) = .ok c := by
  cases c <;> rfl

/-- `parse` then `render` returns the original wire string for `actions::Created`. -/
theorem Created_render_parse (s : String) (c : actions.Created)
    (h : actions.Created.parse s = .ok c) : actions.Created.render c = s := by
  simp only [actions.Created.parse] at h
  split_ifs at h with h1 <;>
    first
    | (injection h with hc; subst hc; simp_all [actions.Created.render])
    | injection h

/-- `render` then `parse` is the identity on `actions::Revoked`. -/
theorem Revoked_parse_render (c : actions.Revoked) :
    actions.Revoked.parse (actions.Revoked.render c) = .ok c := by
  cases c <;> rfl

/-- `parse` then `render` returns the original wire string for `actions::Revoked`. -/
theorem Revoked_render_parse (s : String) (c : actions.Revoked)
    (h : actions.Revoked.parse s = .ok c) : actions.Revoked.render c = s := by
  simp only [actions.Revoked.parse] at h
  split_ifs at h with h1 <;>
    first
    | (injection h with hc; subst hc; simp_all [actions.Revoked.render])
    | injection h

/-- `render` then `parse` is the identity on `actions::CreatedDeleted`. -/
theorem CreatedDeleted_parse_render (c : actions.CreatedDeleted) :
    actions.CreatedDeleted.parse (actions.CreatedDeleted.render c) = .ok c := by
  cases c <;> rfl

/-- `parse` then `render` returns the original wire string for `actions::CreatedDeleted`. -/
theorem CreatedDeleted_render_parse (s : String) (c : actions.CreatedDeleted)
    (h : actions.CreatedDeleted.parse s = .ok c) : actions.CreatedDeleted.render c = s := by
  simp only [actions.CreatedDeleted.parse] at h
  split_ifs at h with h1 h2 <;>
    first
    | (injection h with hc; subst hc; simp_all [actions.CreatedDeleted.render])
    | injection h

/-- `render` then `parse` is the identity on `actions::CrEdDel`. -/
theorem CrEdDel_parse_render (c : actions.CrEdDel) :
    actions.CrEdDel.parse (actions.CrEdDel.render c) = .ok c := by
  cases c <;> rfl

/-- `parse` then `render` returns the original wire string for `actions::CrEdDel`. -/
theorem CrEdDel_render_parse (s : String) (c : actions.CrEdDel)
    (h : actions.CrEdDel.parse s = .ok c) : actions.CrEdDel.render c = s := by
  simp only [actions.CrEdDel.parse] at h
  split_ifs at h with h1 h2 h3 <;>
    first
    | (injection h with hc; subst hc; simp_all [actions.CrEdDel.render])
    | injection h

/-- `render` then `parse` is the identity on `actions::AddedRemoved`. -/
theorem AddedRemoved_parse_render (c : actions.AddedRemoved) :
    actions.AddedRemoved.parse (actions.AddedRemoved.render c) = .ok c := by
  cases c <;> rfl

/-- `parse` then `render` returns the original wire string for `actions::AddedRemoved`. -/
theorem AddedRemoved_render_parse (s : String) (c : actions.AddedRemoved)
    (h : actions.AddedRemoved.parse s = .ok c) : actions.AddedRemoved.render c = s := by
  simp only [actions.AddedRemoved.parse] at h
  split_ifs at h with h1 h2 <;>
    first
    | (injection h with hc; subst hc; simp_all [actions.AddedRemoved.render])
    | injection h

/-- `render` then `parse` is the identity on `actions::TeamEvent`. -/
theorem TeamEvent_parse_render (c : actions.TeamEvent) :
    actions.TeamEvent.parse (actions.TeamEvent.render c) = .ok c := by
  cases c <;> rfl

/-- `parse` then `render` returns the original wire string for `actions::TeamEvent`. -/
theorem TeamEvent_render_parse (s : String) (c : actions.TeamEvent)
    (h : actions.TeamEvent.parse s = .ok c) : actions.TeamEvent.render c = s := by
  simp only [actions.TeamEvent.parse] at h
  split_ifs at h with h1 h2 h3 h4 h5 <;>
    first
    | (injection h with hc; subst hc; simp_all [actions.TeamEvent.render])
    | injection h


/-- C1 counterexample: variant selection is not structural.  `checkRunPayload`
is a valid payload whose top-level keys are exactly the required-key
signature of the `CheckRunEvent` variant (shown by the first conjunct:
decoding it against that variant's shape succeeds), yet decoding the document
itself does not select the `CheckRunEvent` variant: the derived decoder of
the externally tagged `Event` enum reads the first key (`action`) as a
variant name and fails with serde's "unknown variant" error. -/
theorem C1_counterexample :
    Ty.decode Event.CheckRunEvent checkRunPayload = .ok checkRunPayloadVal ∧
    decodeEvent checkRunPayload = .error (.unknownVariant "action") :=
  ⟨rfl, rfl⟩

/-- C1 (amended): the `Event` enum is externally tagged, so the decoder
selects the variant by the document's single top-level key naming the
variant, not by inspecting which payload keys are present; a document
wrapping a valid `CheckRunEvent` payload under the `"CheckRunEvent"` key
decodes to exactly that variant (the result carries exactly one variant
tag). -/
theorem C1_variant_by_external_tag :
    decodeEvent (.obj [("CheckRunEvent", checkRunPayload)]) =
      .ok ("CheckRunEvent", checkRunPayloadVal) :=
  rfl

/-- C2 counterexample: no `decode_with_hint` entry point exists in the
source; the only event-name channel the generated decoder has is the
external variant tag inside the document, and that channel does not accept
the webhook event name `"push"`: a document tagged `"push"` fails with
serde's "unknown variant" error instead of decoding as `PushEvent`. -/
theorem C2_counterexample :
    decodeEvent (.obj [("push", pushAmbiguousPayload)]) =
      .error (.unknownVariant "push") :=
  rfl

/-- C2 (amended): the crate has no separate `decode_with_hint` function; the
name-driven selection the spec describes exists only as the external variant
tag (the variant's Rust name, e.g. `"PushEvent"`).  That tag does override
structure: `pushAmbiguousPayload` is structurally valid both as a
`PushEvent` payload and as a `WatchEvent` payload, and the same payload
decodes as whichever variant the tag names. -/
theorem C2_tag_overrides_structure :
    decodeEvent (.obj [("PushEvent", pushAmbiguousPayload)]) =
      .ok ("PushEvent", pushAmbiguousPayloadVal) ∧
    decodeEvent (.obj [("WatchEvent", pushAmbiguousPayload)]) =
      .ok ("WatchEvent", watchOfPushVal) :=
  ⟨rfl, rfl⟩

/-- C3 counterexample: adding an unknown field to a successfully decoding
document can make decoding fail.  The tagged `DeleteEvent` document decodes
successfully, but the same document with one additional top-level entry
`"extra": null` is rejected, because the externally tagged enum object must
contain exactly the single variant entry. -/
theorem C3_counterexample :
    decodeEvent (.obj [("DeleteEvent", deletePayload)]) =
      .ok ("DeleteEvent", deletePayloadVal) ∧
    decodeEvent (.obj [("DeleteEvent", deletePayload), ("extra", .null)]) =
      .error .trailingKeys :=
  ⟨rfl, rfl⟩

/-- C3 (amended): inside a struct (a variant payload or any nested record),
an entry whose key is not a declared field is ignored wherever it occurs, so
unknown fields there never change the result; only at the document root (the
enum's tag object) is an extra entry an error.  A declared non-optional
field that is absent is a hard error: the `CheckRunEvent`-shaped document
with the `check_run` entry deleted fails with serde's missing-field error
naming `check_run`. -/
theorem C3_unknown_ignored_missing_required :
    (∀ (nm : String) (fs : Fields) (k : String) (j : Json)
        (l1 l2 : List (String × Json)), Fields.lookupTy fs k = none →
        Ty.decode (.record nm fs) (.obj (l1 ++ (k, j) :: l2)) =
          Ty.decode (.record nm fs) (.obj (l1 ++ l2))) ∧
    decodeEvent (.obj [("CheckRunEvent", checkRunPayloadMissing)]) =
      .error (.missingField "check_run") :=
  ⟨fun nm fs k j l1 l2 hk => decode_record_skip_unknown nm fs k j hk l1 l2, rfl⟩

/-- Witness for C3: the unknown-field lemma applied at a concrete record
shape, key and document. -/
theorem C3_witness :
    Fields.lookupTy (Fields.ofList [("ref", Ty.string)]) "extra" = none ∧
    Ty.decode (.record "DeleteEvent" (Fields.ofList [("ref", Ty.string)]))
        (.obj ([("ref", .str "x")] ++ ("extra", .null) :: [])) =
      Ty.decode (.record "DeleteEvent" (Fields.ofList [("ref", Ty.string)]))
        (.obj ([("ref", .str "x")] ++ [])) :=
  ⟨rfl, C3_unknown_ignored_missing_required.1 "DeleteEvent"
    (Fields.ofList [("ref", Ty.string)]) "extra" .null [("ref", .str "x")] [] rfl⟩

/-- C4: for each of the seven action enumerations, parse and render form an
exact inverse pair over the documented snake_case value set (case-sensitive):
rendering then parsing is the identity, and any successful parse renders
back to the exact input string.  For `Check`, parsing each of the four
documented values succeeds, rendering the result returns the original
string, and parsing a string outside the set ("bogus") fails with serde's
unknown-variant error (the error the spec calls `InvalidActionValue`). -/
theorem C4_parse_render_inverse :
    (∀ c, actions.Check.parse (actions.Check.render c) = .ok c) ∧
    (∀ s c, actions.Check.parse s = .ok c → actions.Check.render c = s) ∧
    (∀ c, actions.Created.parse (actions.Created.render c) = .ok c) ∧
    (∀ s c, actions.Created.parse s = .ok c → actions.Created.render c = s) ∧
    (∀ c, actions.Revoked.parse (actions.Revoked.render c) = .ok c) ∧
    (∀ s c, actions.Revoked.parse s = .ok c → actions.Revoked.render c = s) ∧
    (∀ c, actions.CreatedDeleted.parse (actions.CreatedDeleted.render c) = .ok c) ∧
    (∀ s c, actions.CreatedDeleted.parse s = .ok c →
      actions.CreatedDeleted.render c = s) ∧
    (∀ c, actions.CrEdDel.parse (actions.CrEdDel.render c) = .ok c) ∧
    (∀ s c, actions.CrEdDel.parse s = .ok c → actions.CrEdDel.render c = s) ∧
    (∀ c, actions.AddedRemoved.parse (actions.AddedRemoved.render c) = .ok c) ∧
    (∀ s c, actions.AddedRemoved.parse s = .ok c →
      actions.AddedRemoved.render c = s) ∧
    (∀ c, actions.TeamEvent.parse (actions.TeamEvent.render c) = .ok c) ∧
    (∀ s c, actions.TeamEvent.parse s = .ok c → actions.TeamEvent.render c = s) ∧
    (actions.Check.parse "created" = .ok .created ∧
      actions.Check.parse "rerequested" = .ok .rerequested ∧
      actions.Check.parse "completed" = .ok .completed ∧
      actions.Check.parse "requested_action" = .ok .requestedAction) ∧
    (actions.Check.render .created = "created" ∧
      actions.Check.render .rerequested = "rerequested" ∧
      actions.Check.render .completed = "completed" ∧
      actions.Check.render .requestedAction = "requested_action") ∧
    actions.Check.parse "bogus" = .error (.unknownVariant "bogus") :=
  ⟨Check_parse_render, Check_render_parse, Created_parse_render, Created_render_parse,
    Revoked_parse_render, Revoked_render_parse, CreatedDeleted_parse_render,
    CreatedDeleted_render_parse, CrEdDel_parse_render, CrEdDel_render_parse,
    AddedRemoved_parse_render, AddedRemoved_render_parse, TeamEvent_parse_render,
    TeamEvent_render_parse, ⟨rfl, rfl, rfl, rfl⟩, ⟨rfl, rfl, rfl, rfl⟩, rfl⟩

/-- Witness for C4: the parse-then-render direction applied at the concrete
input "completed". -/
theorem C4_witness : actions.Check.render .completed = "completed" :=
  C4_parse_render_inverse.2.1 "completed" .completed rfl

/-- C5: round trip.  Every successfully decoded `Event` value, re-encoded to
JSON and decoded again, yields the same tagged value (field-for-field
equality); this holds for every variant, including those with opaque
(`serde_json::Value`) fields. -/
theorem C5_roundtrip (j : Json) (tag : String) (v : Val)
    (h : decodeEvent j = .ok (tag, v)) :
    decodeEvent (encodeEvent tag v) = .ok (tag, v) :=
  decodeEvent_roundtrip j tag v h

/-- Witness for C5: the round trip at a concrete decoded `DeleteEvent`. -/
theorem C5_witness :
    decodeEvent (.obj [("DeleteEvent", deletePayload)]) =
      .ok ("DeleteEvent", deletePayloadVal) ∧
    decodeEvent (encodeEvent "DeleteEvent" deletePayloadVal) =
      .ok ("DeleteEvent", deletePayloadVal) :=
  ⟨rfl, C5_roundtrip (.obj [("DeleteEvent", deletePayload)]) "DeleteEvent"
    deletePayloadVal rfl⟩

/-- C6: opaque-field fidelity.  For every JSON value `d` (string, object,
null, or anything else), the `CreateEvent` document with `"description": d`
decodes successfully into the same variant with the same value except that
the opaque `description` field captures `d` itself (first conjunct: the
decoded value is `createPayloadVal d`, which is identical for every `d`
apart from that field); and re-encoding the decoded value reproduces the
original document exactly, so the captured value survives decode and
re-encode unmodified. -/
theorem C6_opaque_fidelity :
    (∀ d, decodeEvent (.obj [("CreateEvent", createPayload d)]) =
      .ok ("CreateEvent", createPayloadVal d)) ∧
    (∀ d, Val.encode (createPayloadVal d) = createPayload d) := by
  constructor
  · intro d
    rfl
  · intro d
    simp [createPayloadVal, createPayload, sampleRepositoryVal, sampleRepository,
      sampleOwnerVal, sampleOwner, sampleSenderVal, sampleSender,
      Val.encode, Val.encodeList, Val.encodeFields]

/-- C7 counterexample: decoding errors do not carry the dotted field path of
the detection site.  Two documents whose ill-typed entry sits at different
dotted paths — `id` at the payload top level versus `repository.id` one
level down — produce the very same error value, so the error cannot name
the path where detection occurred (serde_json errors carry the expected and
found kinds plus a byte position, never a dotted field path). -/
theorem C7_counterexample :
    decodeEvent (.obj [("PageBuildEvent", .obj [("id", .str "5")])]) =
      .error (.invalidType "i64" "string") ∧
    decodeEvent (.obj [("PageBuildEvent",
        .obj [("repository", .obj [("id", .str "5")])])]) =
      .error (.invalidType "i64" "string") :=
  ⟨rfl, rfl⟩

/-- C7 (amended): a declared numeric field given as a JSON string fails with
serde's invalid-type error (what the spec calls `TypeMismatch`) carrying the
expected kind (`i64`) and the found kind (`string`); errors carry the
expected/found kinds, and missing-field errors the bare field name, but not
a dotted field path. -/
theorem C7_type_mismatch :
    decodeEvent (.obj [("PageBuildEvent", .obj [("id", .str "5")])]) =
      .error (.invalidType "i64" "string") :=
  rfl

/-- C8: the `ref` field of `CreateEvent` is declared as a non-optional
`String`, so a payload whose top-level `ref` is JSON `null` fails with an
invalid-type error (expected a string, found null), even though the field's
own documentation says the git ref is null when only a repository was
created. -/
theorem C8_create_ref_null_fails :
    decodeEvent (.obj [("CreateEvent", createPayloadNullRef)]) =
      .error (.invalidType "a string" "null") :=
  rfl

/-- C9: `changes` is required on the variants that declare it as a plain
`serde_json::Value` and optional where it is declared `Option`.  Omitting
`changes` from `PullRequestEvent`, `ProjectColumnEvent`, `ProjectEvent`,
`PullRequestReviewEvent`, `PullRequestReviewCommentEvent` and `TeamEvent`
payloads fails with serde's missing-field error naming `changes` even when
every present entry is valid (e.g. action "opened"), while
`IssueCommentEvent`, `LabelEvent`, `MilestoneEvent` and `ProjectCardEvent`
payloads without `changes` decode successfully with the field captured as
`None`; `OrganizationEvent` declares no `changes` field at all, and a
payload omitting it decodes successfully with no such field in the result. -/
theorem C9_changes_required_vs_optional :
    decodeEvent (.obj [("PullRequestEvent",
        .obj [("action", .str "opened"), ("number", .num 1)])]) =
      .error (.missingField "changes") ∧
    decodeEvent (.obj [("ProjectColumnEvent", .obj [("action", .str "created")])]) =
      .error (.missingField "changes") ∧
    decodeEvent (.obj [("ProjectEvent", .obj [("action", .str "created")])]) =
      .error (.missingField "changes") ∧
    decodeEvent (.obj [("PullRequestReviewEvent", .obj [("action", .str "submitted")])]) =
      .error (.missingField "changes") ∧
    decodeEvent (.obj [("PullRequestReviewCommentEvent",
        .obj [("action", .str "created"), ("comment", sampleComment)])]) =
      .error (.missingField "changes") ∧
    decodeEvent (.obj [("TeamEvent",
        .obj [("action", .str "created"), ("team", sampleTeam)])]) =
      .error (.missingField "changes") ∧
    decodeEvent (.obj [("IssueCommentEvent", issueCommentPayload)]) =
      .ok ("IssueCommentEvent", issueCommentPayloadVal) ∧
    (∃ v, decodeEvent (.obj [("LabelEvent",
        .obj [("action", .str "created"), ("label", sampleLabel),
          ("repository", sampleRepository), ("sender", sampleSender)])]) =
      .ok ("LabelEvent", v) ∧ v.field "changes" = some (.opt none)) ∧
    (∃ v, decodeEvent (.obj [("MilestoneEvent", milestonePayload "created")]) =
      .ok ("MilestoneEvent", v) ∧ v.field "changes" = some (.opt none)) ∧
    (∃ v, decodeEvent (.obj [("ProjectCardEvent",
        .obj [("action", .str "created"), ("project_card", sampleProjectCard),
          ("repository", sampleRepository), ("sender", sampleSender)])]) =
      .ok ("ProjectCardEvent", v) ∧ v.field "changes" = some (.opt none)) ∧
    (∃ v, decodeEvent (.obj [("OrganizationEvent",
        .obj [("action", .str "member_added"), ("membership", sampleMembership),
          ("organization", sampleOrganization), ("sender", sampleSender)])]) =
      .ok ("OrganizationEvent", v) ∧ v.field "changes" = none) :=
  ⟨rfl, rfl, rfl, rfl, rfl, rfl, rfl,
    ⟨_, rfl, rfl⟩, ⟨_, rfl, rfl⟩, ⟨_, rfl, rfl⟩, ⟨_, rfl, rfl⟩⟩

/-- C10: variants whose `action` field is declared as a plain `String`
accept every action string whatsoever — for any string `s`, a
`MilestoneEvent` payload with action `s` and a `WatchEvent` payload with
action `s` both decode successfully, capturing `s` verbatim — whereas a
variant typed with an actions enumeration rejects strings outside the set:
a `CheckRunEvent` payload with action "bogus" fails with serde's
unknown-variant error. -/
theorem C10_plain_action_accepts_all :
    (∀ s, decodeEvent (.obj [("MilestoneEvent", milestonePayload s)]) =
      .ok ("MilestoneEvent", milestonePayloadVal s)) ∧
    (∀ s, decodeEvent (.obj [("WatchEvent", watchPayload s)]) =
      .ok ("WatchEvent", watchPayloadVal s)) ∧
    decodeEvent (.obj [("CheckRunEvent", .obj [("action", .str "bogus")])]) =
      .error (.unknownVariant "bogus") :=
  ⟨fun _ => rfl, fun _ => rfl, rfl⟩

end GithubEvents
